import Mathlib

/-!
Verification of the grade-aggregation and settings-inheritance engine of the
LXP school-administration repository.

The repository bundles several divergent rewrites of the same service files;
where two versions of a function diverge we embed both and name them by the
version order in the bundled file (for example the four-parameter
calculateAssessmentPeriodGrade from the first rewrite of SubjectGradeManager.ts
and the five-parameter one from the second rewrite).

Numbers are embedded as rationals: the source only adds, multiplies, divides
and compares, and every claim is about exact arithmetic identities.
JavaScript truthiness on numbers and optional values is modelled explicitly
by the helper jsOrQ below.
-/

namespace Lxp

/-- Case analysis on an optional value, used instead of a bare match so that
the equations below drive simplification. -/
def optElim {α β : Type} (x : Option α) (d : β) (f : α → β) : β :=
  match x with
  | none => d
  | some a => f a

@[simp] theorem optElim_none {α β : Type} (d : β) (f : α → β) :
    optElim none d f = d := rfl

@[simp] theorem optElim_some {α β : Type} (a : α) (d : β) (f : α → β) :
    optElim (some a) d f = f a := rfl

/-- Case analysis on an exception value, used instead of a bare match so
that the equations below drive simplification. -/
def exElim {ε α β : Type} (x : Except ε α) (f : ε → β) (g : α → β) : β :=
  match x with
  | .error e => f e
  | .ok a => g a

@[simp] theorem exElim_error {ε α β : Type} (e : ε) (f : ε → β) (g : α → β) :
    exElim (Except.error e) f g = f e := rfl

@[simp] theorem exElim_ok {ε α β : Type} (a : α) (f : ε → β) (g : α → β) :
    exElim (Except.ok a) f g = g a := rfl

/-- Models the JavaScript expression x || d for a numeric x that may be
null or undefined: absent values and the number 0 are falsy and fall back
to the default. -/
def jsOrQ (x : Option ℚ) (d : ℚ) : ℚ :=
  optElim x d (fun v => if v = 0 then d else v)

/-- Association-list update with JavaScript object-spread semantics:
the spread of an object with a computed key replaces the value in place
when the key is present and appends the entry otherwise. -/
def recordUpdate {α : Type} (m : List (String × α)) (k : String) (v : α) : List (String × α) :=
  if m.any (fun p => decide (p.1 = k)) then
    m.map (fun p => if p.1 = k then (k, v) else p)
  else
    m ++ [(k, v)]

/-- Lookup of a key in an association list, mirroring reading a property of a
JavaScript object. -/
def lookupKey {α : Type} (m : List (String × α)) (k : String) : Option α :=
  (m.find? (fun p => decide (p.1 = k))).map (fun p => p.2)

/-- Row of the TermAssessmentPeriod table: id, owning academic term, name,
date range (dates as integer timestamps) and relative weight. -/
structure TermAssessmentPeriod where
  id : String
  termId : String
  name : String
  startDate : ℤ
  endDate : ℤ
  weight : ℚ
  deriving DecidableEq, Repr

/-- Row of the Activity table: the fields read by the grading queries. -/
structure Activity where
  id : String
  subjectId : String
  createdAt : ℤ
  deriving DecidableEq, Repr

/-- Row of the ActivitySubmission table. Marks are nullable in the schema;
gradedAt null means the submission is not yet graded. -/
structure ActivitySubmission where
  id : String
  activityId : String
  studentId : String
  obtainedMarks : Option ℚ
  totalMarks : Option ℚ
  gradedAt : Option ℤ
  rubricScores : Option (List (String × ℚ))
  deriving DecidableEq, Repr

/-- Row of the Subject table: credits are nullable. -/
structure Subject where
  id : String
  classGroupId : String
  credits : Option ℚ
  deriving DecidableEq, Repr

/-- Row of the MarkingScheme table from the assessment type definitions:
carries the configured passing threshold of an assessment system. -/
structure MarkingScheme where
  id : String
  assessmentSystemId : String
  maxMarks : ℚ
  passingMarks : ℚ
  deriving DecidableEq, Repr

/-- The assessment record returned by AssessmentService.getAssessmentForActivity:
a type tag and optional references to a marking scheme or rubric. -/
structure AssessmentInfo where
  type : String
  markingSchemeId : Option String
  rubricId : Option String
  deriving DecidableEq, Repr

/-- A rubric score entry as built by the first rewrite of
calculateAssessmentPeriodGrade from a submission rubricScores map. -/
structure RubricScore where
  criteriaId : String
  levelId : String
  points : ℚ
  deriving DecidableEq, Repr

/-- The AssessmentPeriodGrade result record of SubjectGradeManager. -/
structure AssessmentPeriodGrade where
  periodId : String
  obtainedMarks : ℚ
  totalMarks : ℚ
  percentage : ℚ
  weight : ℚ
  isPassing : Bool
  gradePoints : ℚ
  deriving DecidableEq, Repr

/-- The SubjectTermGrade result record of SubjectGradeManager. periodGrades
is a keyed map in the source; we embed it as an association list in
insertion order. -/
structure SubjectTermGrade where
  termId : String
  periodGrades : List (String × AssessmentPeriodGrade)
  finalGrade : ℚ
  totalMarks : ℚ
  percentage : ℚ
  isPassing : Bool
  gradePoints : ℚ
  credits : ℚ
  deriving DecidableEq, Repr

/-- Row of the SubjectGradeRecord table: termGrades and
assessmentPeriodGrades are JSON maps in the source, embedded as
association lists. -/
structure SubjectGradeRecord where
  id : String
  gradeBookId : String
  subjectId : String
  termGrades : List (String × SubjectTermGrade)
  assessmentPeriodGrades : List (String × AssessmentPeriodGrade)
  deriving DecidableEq, Repr

/-- Row of the GradeHistory table as written by recordGradeHistory. -/
structure GradeHistoryEntry where
  studentId : String
  subjectId : String
  gradeValue : ℚ
  modifiedBy : String
  reason : String
  deriving DecidableEq, Repr

/-- Modelled from the spec: the SubjectAssessmentConfig type is imported from
types/grades but absent from that file under src/. The spec describes it as
carrying the weightage distribution of the assessment system, mapping an
assessment category to its weight. -/
structure SubjectAssessmentConfig where
  weightageDistribution : Option (List (String × ℚ))
  deriving DecidableEq, Repr

/-- The environment of collaborator behaviour that the SubjectGradeManager
methods call but that is not itself under src/ (the AssessmentService
methods, and two SubjectGradeManager helpers referenced without a
definition). The claims settled here do not depend on the values of these
functions, so they are kept as abstract parameters and every theorem is
universally quantified over them. -/
structure Env where
  getAssessmentForActivity : String → Option AssessmentInfo
  calculatePercentageFromMarkingScheme : String → ℚ → ℚ → ℚ
  calculatePercentageFromRubric : String → List (List RubricScore) → ℚ
  calculateGPA : ℚ → Option String → ℚ
  calculateSubmissionPercentage : ActivitySubmission → AssessmentInfo → ℚ
  checkPassingCriteria : ℚ → List ActivitySubmission → SubjectAssessmentConfig → Bool

/-- Row of the AcademicTerm table, together with its included assessment
periods, as fetched with the include clauses of TermManagementService. The
termId field references the calendar Term, mirroring the column of the same
name. -/
structure AcademicTerm where
  id : String
  name : String
  startDate : ℤ
  endDate : ℤ
  termType : String
  termId : String
  assessmentPeriods : List TermAssessmentPeriod
  deriving DecidableEq, Repr

/-- One entry of the parsed customSettings payload of
ClassGroupTermSettings (the CustomTerm interface of
TermManagementService.ts). -/
structure CustomTerm where
  termId : String
  startDate : ℤ
  endDate : ℤ
  assessmentPeriods : List TermAssessmentPeriod
  deriving DecidableEq, Repr

/-- The parsed customSettings payload (the CustomSettings interface of
TermManagementService.ts). -/
structure CustomSettings where
  terms : List CustomTerm
  deriving DecidableEq, Repr

/-- Row of the ProgramTermStructure table with its included academic
terms. -/
structure ProgramTermStructure where
  id : String
  programId : String
  academicTerms : List AcademicTerm
  deriving DecidableEq, Repr

/-- Row of the ClassGroupTermSettings table. weight is the term weight read
by calculateCumulativeGrade of GradeBookService.ts; customSettings is the
JSON override payload, already parsed. -/
structure ClassGroupTermSettings where
  classGroupId : String
  programTermId : Option String
  customSettings : Option CustomSettings
  weight : Option ℚ
  deriving DecidableEq, Repr

/-- Row of the Class table with the fields touched by
createClassWithInheritance. -/
structure ClassRow where
  id : String
  name : String
  classGroupId : String
  capacity : ℤ
  status : String
  termStructureId : Option String
  deriving DecidableEq, Repr

/-- Row of the ClassGroup table. -/
structure ClassGroup where
  id : String
  programId : String
  deriving DecidableEq, Repr

/-- Row of the Program table; the assessment system relation is optional. -/
structure Program where
  id : String
  assessmentSystemId : Option String
  deriving DecidableEq, Repr

/-- Row of the AssessmentSystem table. -/
structure AssessmentSystemRow where
  id : String
  name : String
  type : String
  deriving DecidableEq, Repr

/-- The untyped customSettings JSON payload of
ClassGroupAssessmentSettings, shallow-merged over the base assessment
system by an object spread in the source; embedded field-wise for the
representable fields. -/
structure AssessmentSystemPatch where
  name : Option String
  type : Option String
  deriving DecidableEq, Repr

/-- Row of the ClassGroupAssessmentSettings table. -/
structure ClassGroupAssessmentSettings where
  classGroupId : String
  assessmentSystemId : String
  isCustomized : Bool
  customSettings : Option AssessmentSystemPatch
  deriving DecidableEq, Repr

/-- Row of the GradeBook table. -/
structure GradeBookRow where
  id : String
  classId : String
  assessmentSystemId : String
  termStructureId : Option String
  deriving DecidableEq, Repr

/-- Row of the TermResult table as upserted by recordTermResult; metadata
holds the customSettings payload stored by the GradeBookService.ts
version. -/
structure TermResult where
  studentId : String
  programTermId : String
  gpa : ℚ
  totalCredits : ℚ
  earnedCredits : ℚ
  metadata : Option CustomSettings
  deriving DecidableEq, Repr

/-- Row of the Assessment table as read by GradeValidationService. -/
structure AssessmentRow where
  id : String
  title : String
  deriving DecidableEq, Repr

/-- Row of the AssessmentSubmission table as read by
GradeValidationService. -/
structure AssessmentSubmissionRow where
  assessmentId : String
  studentId : String
  gradedAt : Option ℤ
  deriving DecidableEq, Repr

/-- The GradeEntry input of GradeValidationService.validateGradeEntry. -/
structure GradeEntry where
  studentId : String
  assessmentId : String
  obtainedMarks : ℚ
  totalMarks : ℚ
  submissionDate : ℤ
  deriving DecidableEq, Repr

/-- The ValidationResult record of GradeValidationService. -/
structure ValidationResult where
  isValid : Bool
  errors : List String
  deriving DecidableEq, Repr

/-- The CumulativeGrade result of GradeBookService.calculateCumulativeGrade. -/
structure CumulativeGrade where
  gpa : ℚ
  totalCredits : ℚ
  earnedCredits : ℚ
  subjectGrades : List (String × SubjectTermGrade)
  deriving DecidableEq, Repr

/-- The CreateClassInput of createClassWithInheritance. -/
structure CreateClassInput where
  name : String
  classGroupId : String
  capacity : ℤ
  deriving DecidableEq, Repr

/-- The persistent record store: one list per table touched by the embedded
services. nextId feeds generated primary keys. -/
structure Store where
  termAssessmentPeriods : List TermAssessmentPeriod
  activities : List Activity
  activitySubmissions : List ActivitySubmission
  subjects : List Subject
  markingSchemes : List MarkingScheme
  classes : List ClassRow
  classGroups : List ClassGroup
  programs : List Program
  assessmentSystems : List AssessmentSystemRow
  classGroupAssessmentSettings : List ClassGroupAssessmentSettings
  programTermStructures : List ProgramTermStructure
  classGroupTermSettings : List ClassGroupTermSettings
  gradeBooks : List GradeBookRow
  subjectGradeRecords : List SubjectGradeRecord
  gradeHistory : List GradeHistoryEntry
  termResults : List TermResult
  assessments : List AssessmentRow
  assessmentSubmissions : List AssessmentSubmissionRow
  nextId : ℕ
  deriving DecidableEq, Repr

/-- Generated primary key for rows created without an explicit id. -/
def genId (n : ℕ) : String := "gen_" ++ toString n

/-!
SubjectGradeManager. The bundled file holds three rewrites; the
first and third share their calculateAssessmentPeriodGrade and
calculateSubjectTermGrade, the second takes an extra SubjectAssessmentConfig
parameter in calculateAssessmentPeriodGrade.
-/

/-- The where-clause of the submission query of the first
calculateAssessmentPeriodGrade: the related activity must belong to the
subject and, when the period row was found, be created inside its date
range (Prisma drops the gte and lte bounds when the period is absent and
they are undefined); the submission must belong to the student and be
graded. -/
def submissionMatches (activities : List Activity) (subjectId : String)
    (period : Option TermAssessmentPeriod) (studentId : String)
    (sub : ActivitySubmission) : Bool :=
  optElim (activities.find? (fun a => decide (a.id = sub.activityId))) false
    (fun a =>
      decide (a.subjectId = subjectId) &&
      optElim period true
        (fun p => decide (p.startDate ≤ a.createdAt) && decide (a.createdAt ≤ p.endDate)) &&
      decide (sub.studentId = studentId) && sub.gradedAt.isSome)

/-- One iteration of the submission loop of the first
calculateAssessmentPeriodGrade. The accumulator mirrors the three mutable
locals (totalObtained, totalPossible, percentage): percentage is
overwritten by each scored submission, with the marking-scheme, rubric and
default branches of the switch, and the obtained and total marks are summed
with the JavaScript || 0 defaults. -/
def periodAccum (env : Env) (acc : ℚ × ℚ × ℚ) (sub : ActivitySubmission) : ℚ × ℚ × ℚ :=
  let pct : ℚ :=
    optElim (env.getAssessmentForActivity sub.activityId) acc.2.2
      (fun assessment =>
        if assessment.type = "MARKING_SCHEME" then
          env.calculatePercentageFromMarkingScheme (assessment.markingSchemeId.getD "")
            (jsOrQ sub.obtainedMarks 0) (jsOrQ sub.totalMarks 0)
        else if assessment.type = "RUBRIC" then
          optElim sub.rubricScores acc.2.2
            (fun scores =>
              env.calculatePercentageFromRubric (assessment.rubricId.getD "")
                [scores.map (fun cp => { criteriaId := cp.1, levelId := toString cp.2, points := cp.2 })])
        else
          jsOrQ sub.obtainedMarks 0 / max 1 (jsOrQ sub.totalMarks 0) * 100)
  (acc.1 + jsOrQ sub.obtainedMarks 0, acc.2.1 + jsOrQ sub.totalMarks 0, pct)

/-- The first calculateAssessmentPeriodGrade of SubjectGradeManager.ts
(four parameters). It looks the period up by id, filters the graded
submissions of the subject and student (date-bounded only when the period
exists), folds the submission loop, and falls back from the last computed
percentage (JavaScript || on a number: 0 is falsy) to the mark ratio. The
source has no throw on this path: a missing period flows through optional
chaining and yields weight 0. -/
def calculateAssessmentPeriodGrade (env : Env) (s : Store)
    (subjectId periodId studentId : String) (assessmentSystemId : Option String) :
    AssessmentPeriodGrade :=
  let period := s.termAssessmentPeriods.find? (fun p => decide (p.id = periodId))
  let submissions := s.activitySubmissions.filter
    (submissionMatches s.activities subjectId period studentId)
  let acc := submissions.foldl (periodAccum env) (0, 0, 0)
  let finalPercentage : ℚ :=
    if acc.2.2 = 0 then (if 0 < acc.2.1 then acc.1 / acc.2.1 * 100 else 0) else acc.2.2
  { periodId := periodId
    obtainedMarks := acc.1
    totalMarks := acc.2.1
    percentage := finalPercentage
    weight := jsOrQ (period.map (fun p => p.weight)) 0
    isPassing := decide (50 ≤ finalPercentage)
    gradePoints := env.calculateGPA finalPercentage assessmentSystemId }

/-- Modelled from the spec: getAssessmentWeight is called by the second
calculateAssessmentPeriodGrade but defined nowhere under src/. The spec
says the assessment weight is derived from the assessment category inside
the weightage distribution, default 1 if unconfigured. -/
def getAssessmentWeight (ty : String) (dist : Option (List (String × ℚ))) : ℚ :=
  optElim dist 1
    (fun d => ((d.find? (fun p => decide (p.1 = ty))).map (fun p => p.2)).getD 1)

/-- Modelled from the spec: getSubmissionsForPeriod is called by the second
calculateAssessmentPeriodGrade but defined nowhere under src/. The spec
describes it as fetching all graded submissions for activities of the
subject whose creation falls inside the assessment period date range, for
the student; this is the same query the first rewrite inlines. -/
def getSubmissionsForPeriod (s : Store) (subjectId periodId studentId : String) :
    List ActivitySubmission :=
  let period := s.termAssessmentPeriods.find? (fun p => decide (p.id = periodId))
  s.activitySubmissions.filter (submissionMatches s.activities subjectId period studentId)

/-- One iteration of the submission loop of the second
calculateAssessmentPeriodGrade: submissions without a resolvable assessment
are skipped, the rest contribute percentage times weight to
totalWeightedScore and weight to totalWeight. -/
def cfgAccumStep (env : Env) (config : SubjectAssessmentConfig)
    (a : ℚ × ℚ) (sub : ActivitySubmission) : ℚ × ℚ :=
  optElim (env.getAssessmentForActivity sub.activityId) a
    (fun assessment =>
      let w := getAssessmentWeight assessment.type config.weightageDistribution
      let pct := env.calculateSubmissionPercentage sub assessment
      (a.1 + pct * w, a.2 + w))

/-- The second calculateAssessmentPeriodGrade of SubjectGradeManager.ts
(five parameters, taking a SubjectAssessmentConfig): a weighted running
total over the submissions, skipping submissions whose assessment cannot be
resolved. -/
def calculateAssessmentPeriodGradeCfg (env : Env) (s : Store)
    (subjectId periodId studentId : String) (assessmentSystemId : Option String)
    (config : SubjectAssessmentConfig) : AssessmentPeriodGrade :=
  let period := s.termAssessmentPeriods.find? (fun p => decide (p.id = periodId))
  let submissions := getSubmissionsForPeriod s subjectId periodId studentId
  let acc := submissions.foldl (cfgAccumStep env config) (0, 0)
  let finalPercentage : ℚ := if 0 < acc.2 then acc.1 / acc.2 else 0
  { periodId := periodId
    obtainedMarks := acc.1
    totalMarks := acc.2 * 100
    percentage := finalPercentage
    weight := jsOrQ (period.map (fun p => p.weight)) 0
    isPassing := env.checkPassingCriteria finalPercentage submissions config
    gradePoints := env.calculateGPA finalPercentage assessmentSystemId }

/-- One iteration of the period loop of calculateSubjectTermGrade: store the
period grade under the period id and accumulate weightedTotal and
weightSum. -/
def termAccumStep (env : Env) (s : Store) (subjectId studentId : String)
    (assessmentSystemId : Option String)
    (acc : List (String × AssessmentPeriodGrade) × ℚ × ℚ)
    (period : TermAssessmentPeriod) :
    List (String × AssessmentPeriodGrade) × ℚ × ℚ :=
  let grade := calculateAssessmentPeriodGrade env s subjectId period.id studentId assessmentSystemId
  (recordUpdate acc.1 period.id grade,
   acc.2.1 + grade.percentage * grade.weight,
   acc.2.2 + grade.weight)

/-- calculateSubjectTermGrade of SubjectGradeManager.ts (identical in the
first and third rewrites, and in the second up to the period-grade callee):
fetch the periods of the term, aggregate the period grades weighted by
period weight, divide by the weight sum when positive, and read the subject
credits with a || 0 default. -/
def calculateSubjectTermGrade (env : Env) (s : Store)
    (subjectId termId studentId : String) (assessmentSystemId : Option String) :
    SubjectTermGrade :=
  let periods := s.termAssessmentPeriods.filter (fun p => decide (p.termId = termId))
  let acc := periods.foldl (termAccumStep env s subjectId studentId assessmentSystemId) ([], 0, 0)
  let finalPercentage : ℚ := if 0 < acc.2.2 then acc.2.1 / acc.2.2 else 0
  { termId := termId
    periodGrades := acc.1
    finalGrade := finalPercentage
    totalMarks := (acc.1.map (fun pg => pg.2.totalMarks)).sum
    percentage := finalPercentage
    isPassing := decide (50 ≤ finalPercentage)
    gradePoints := env.calculateGPA finalPercentage assessmentSystemId
    credits := jsOrQ ((s.subjects.find? (fun x => decide (x.id = subjectId))).bind (fun x => x.credits)) 0 }

/-- updateSubjectGradeRecord of the second rewrite of
SubjectGradeManager.ts: recompute the term grade (the call passes
gradeBookId in the assessmentSystemId position, as the source does), load
the record with id gradeBookId_subjectId, spread the new term entry over the
parsed existing termGrades, upsert, and append a grade-history row with
actor SYSTEM. -/
def updateSubjectGradeRecordV2 (env : Env) (s : Store)
    (gradeBookId subjectId termId studentId : String) : Store :=
  let termGrade := calculateSubjectTermGrade env s subjectId termId studentId (some gradeBookId)
  let rid := gradeBookId ++ "_" ++ subjectId
  let existingRecord := s.subjectGradeRecords.find? (fun r => decide (r.id = rid))
  let existingTermGrades := optElim existingRecord [] (fun r => r.termGrades)
  let newGrades := recordUpdate existingTermGrades termId termGrade
  let records :=
    if s.subjectGradeRecords.any (fun r => decide (r.id = rid)) then
      s.subjectGradeRecords.map (fun r => if r.id = rid then { r with termGrades := newGrades } else r)
    else
      s.subjectGradeRecords ++
        [{ id := rid, gradeBookId := gradeBookId, subjectId := subjectId,
           termGrades := [(termId, termGrade)], assessmentPeriodGrades := [] }]
  { s with
    subjectGradeRecords := records
    gradeHistory := s.gradeHistory ++
      [{ studentId := studentId, subjectId := subjectId,
         gradeValue := termGrade.finalGrade, modifiedBy := "SYSTEM",
         reason := "Term grade calculation" }] }

/-- updateSubjectGradeRecord of the third rewrite of
SubjectGradeManager.ts: recompute the term grade (the call passes no
assessmentSystemId at all), then upsert on the compound key
(gradeBookId, subjectId) setting termGrades to an object holding only the
new term entry; no grade history is written. The id column of the create
branch is database-generated and irrelevant to the claims. -/
def updateSubjectGradeRecordV3 (env : Env) (s : Store)
    (gradeBookId subjectId termId studentId : String) : Store :=
  let termGrade := calculateSubjectTermGrade env s subjectId termId studentId none
  let records :=
    if s.subjectGradeRecords.any (fun r => decide (r.gradeBookId = gradeBookId ∧ r.subjectId = subjectId)) then
      s.subjectGradeRecords.map (fun r =>
        if r.gradeBookId = gradeBookId ∧ r.subjectId = subjectId then
          { r with termGrades := [(termId, termGrade)] }
        else r)
    else
      s.subjectGradeRecords ++
        [{ id := genId s.nextId, gradeBookId := gradeBookId, subjectId := subjectId,
           termGrades := [(termId, termGrade)], assessmentPeriodGrades := [] }]
  { s with subjectGradeRecords := records,
           nextId := s.nextId + 1 }

/-!
TermManagementService.
-/

/-- The object spread of a matching customSettings entry over a term of the
default structure: the dates and assessment periods come from the override,
every other field stays. -/
def applyCustomTerm (term : AcademicTerm) (ct : CustomTerm) : AcademicTerm :=
  { term with startDate := ct.startDate, endDate := ct.endDate,
              assessmentPeriods := ct.assessmentPeriods }

/-- mergeTermSettings of TermManagementService.ts: with no customized
settings the default terms are returned unchanged; otherwise each term whose
id matches a customSettings entry takes the dates and assessment periods of
the first matching entry via an object spread, and every other term is
returned untouched. -/
def mergeTermSettings (terms : List AcademicTerm) (customSettings : Option CustomSettings) :
    List AcademicTerm :=
  optElim customSettings terms
    (fun cs =>
      terms.map (fun term =>
        optElim (cs.terms.find? (fun ct => decide (ct.termId = term.id))) term
          (applyCustomTerm term)))

/-- inheritClassGroupTerms of TermManagementService.ts: a read-only
resolution. It loads the class group, takes the first term settings row, the
program term structure referenced by it or else the first structure of the
program, and applies mergeTermSettings when a customSettings payload is
present. It writes nothing. -/
def inheritClassGroupTerms (s : Store) (classGroupId _classId : String) :
    Except String ProgramTermStructure :=
  optElim (s.classGroups.find? (fun g => decide (g.id = classGroupId)))
    (.error ("ClassGroup with id " ++ classGroupId ++ " not found"))
    (fun classGroup =>
      let termSettings := (s.classGroupTermSettings.filter
        (fun t => decide (t.classGroupId = classGroupId))).head?
      let fromSettings := termSettings.bind (fun ts => ts.programTermId.bind
        (fun pid => s.programTermStructures.find? (fun p => decide (p.id = pid))))
      let programTermStructure : Option ProgramTermStructure :=
        optElim fromSettings
          ((s.programTermStructures.filter
            (fun p => decide (p.programId = classGroup.programId))).head?)
          (fun p => some p)
      optElim programTermStructure (.error "No term structure found for class group")
        (fun pts =>
          optElim (termSettings.bind (fun ts => ts.customSettings)) (.ok pts)
            (fun cs =>
              .ok { pts with academicTerms := mergeTermSettings pts.academicTerms (some cs) })))

/-!
GradeBookService. The bundled GradeBookService.ts holds several rewrites;
createClassWithInheritance and calculateCumulativeGrade appear both there
and in a further rewrite among the unnamed source files, and the two
calculateCumulativeGrade versions differ in the term-weight factor.
-/

/-- Apply the customSettings object spread of the class-group assessment
settings over the base assessment system, field-wise. -/
def applyAssessmentPatch (base : AssessmentSystemRow) (patch : Option AssessmentSystemPatch) :
    AssessmentSystemRow :=
  optElim patch base
    (fun p => { base with name := p.name.getD base.name, type := p.type.getD base.type })

/-- resolveAndInheritAssessmentSystem of GradeBookService.ts: load the class
group and the assessment system of its program (error when either is
missing), then shallow-merge the class-group customization over it when one
is flagged customized. Reads only; performed against the committed snapshot
because the source reads through the service db handle rather than the
transaction client. -/
def resolveAndInheritAssessmentSystem (s0 : Store) (classGroupId : String) :
    Except String AssessmentSystemRow :=
  optElim (s0.classGroups.find? (fun g => decide (g.id = classGroupId)))
    (.error ("ClassGroup with id " ++ classGroupId ++ " not found"))
    (fun cg =>
      optElim ((s0.programs.find? (fun p => decide (p.id = cg.programId))).bind
          (fun p => p.assessmentSystemId.bind
            (fun aid => s0.assessmentSystems.find? (fun a => decide (a.id = aid)))))
        (.error ("AssessmentSystem not found for program of ClassGroup " ++ classGroupId))
        (fun baseSystem =>
          optElim (s0.classGroupAssessmentSettings.find?
              (fun st => decide (st.classGroupId = classGroupId ∧
                st.assessmentSystemId = baseSystem.id)))
            (.ok baseSystem)
            (fun settings =>
              if settings.isCustomized then
                .ok (applyAssessmentPatch baseSystem settings.customSettings)
              else .ok baseSystem)))

/-- initializeSubjectGradeRecords of GradeBookService.ts: look the class
group up through the transaction client and createMany one empty record per
subject of the class group (ids database-generated, irrelevant to the
claims). -/
def initializeSubjectGradeRecords (s : Store) (gradeBookId classGroupId : String) :
    Except String Store :=
  optElim (s.classGroups.find? (fun g => decide (g.id = classGroupId)))
    (.error ("ClassGroup with id " ++ classGroupId ++ " not found"))
    (fun _ =>
      let newRecords : List SubjectGradeRecord :=
        (s.subjects.filter (fun x => decide (x.classGroupId = classGroupId))).map
          (fun x => { id := gradeBookId ++ "_" ++ x.id, gradeBookId := gradeBookId,
                      subjectId := x.id, termGrades := [], assessmentPeriodGrades := [] })
      .ok { s with subjectGradeRecords := s.subjectGradeRecords ++ newRecords })

/-- createClassWithInheritance of GradeBookService.ts. The whole body runs
inside one interactive transaction: every write (class create, class
update, grade book create, subject grade record createMany) goes through
the transaction client, modelled by threading the transaction store; the
collaborator calls inheritClassGroupTerms and
resolveAndInheritAssessmentSystem only read, against the committed
snapshot. A thrown error aborts the chain with no committed result. -/
def createClassWithInheritance (s0 : Store) (input : CreateClassInput) :
    Except String (ClassRow × Store) :=
  let classId := genId s0.nextId
  let newClass : ClassRow :=
    { id := classId, name := input.name, classGroupId := input.classGroupId,
      capacity := input.capacity, status := "ACTIVE", termStructureId := none }
  let s1 : Store := { s0 with classes := s0.classes ++ [newClass], nextId := s0.nextId + 1 }
  exElim (inheritClassGroupTerms s0 input.classGroupId classId) .error
    (fun termSettings =>
      let updatedClass : ClassRow := { newClass with termStructureId := some termSettings.id }
      let classes2 := s1.classes.map (fun c => if c.id = classId then updatedClass else c)
      let s2 : Store := { s1 with classes := classes2 }
      exElim (resolveAndInheritAssessmentSystem s0 input.classGroupId) .error
        (fun assessmentSystem =>
          let gradeBookId := genId s2.nextId
          let gradeBook : GradeBookRow :=
            { id := gradeBookId, classId := classId,
              assessmentSystemId := assessmentSystem.id,
              termStructureId := some termSettings.id }
          let s3 : Store :=
            { s2 with gradeBooks := s2.gradeBooks ++ [gradeBook], nextId := s2.nextId + 1 }
          exElim (initializeSubjectGradeRecords s3 gradeBookId input.classGroupId) .error
            (fun s4 => .ok (updatedClass, s4))))

/-- The committed store after a createClassWithInheritance call: Prisma
commits the transaction store on success and rolls every write back on a
thrown error, leaving the store as it was. -/
def createClassCommittedStore (s0 : Store) (input : CreateClassInput) : Store :=
  exElim (createClassWithInheritance s0 input) (fun _ => s0) (fun r => r.2)

/-- recordTermResult of the unnamed-file rewrite of GradeBookService:
upsert one TermResult row keyed by (studentId, programTermId); the create
branch writes no metadata and the update branch leaves any previous
metadata in place. -/
def recordTermResultP1 (s : Store) (studentId termId : String)
    (gpa totalCredits earnedCredits : ℚ) : Store :=
  if s.termResults.any (fun r => decide (r.studentId = studentId ∧ r.programTermId = termId)) then
    { s with termResults := s.termResults.map (fun r =>
        if r.studentId = studentId ∧ r.programTermId = termId then
          { r with gpa := gpa, totalCredits := totalCredits, earnedCredits := earnedCredits }
        else r) }
  else
    { s with termResults := s.termResults ++
        [{ studentId := studentId, programTermId := termId, gpa := gpa,
           totalCredits := totalCredits, earnedCredits := earnedCredits, metadata := none }] }

/-- recordTermResult of GradeBookService.ts: the same upsert, additionally
storing the customSettings payload as metadata in both branches. -/
def recordTermResultGBS (s : Store) (studentId termId : String)
    (gpa totalCredits earnedCredits : ℚ) (customSettings : Option CustomSettings) : Store :=
  if s.termResults.any (fun r => decide (r.studentId = studentId ∧ r.programTermId = termId)) then
    { s with termResults := s.termResults.map (fun r =>
        if r.studentId = studentId ∧ r.programTermId = termId then
          { r with gpa := gpa, totalCredits := totalCredits, earnedCredits := earnedCredits,
                   metadata := customSettings }
        else r) }
  else
    { s with termResults := s.termResults ++
        [{ studentId := studentId, programTermId := termId, gpa := gpa,
           totalCredits := totalCredits, earnedCredits := earnedCredits,
           metadata := customSettings }] }

/-- Accumulator of the subject loop of calculateCumulativeGrade, mirroring
the mutable locals of the source plus the threaded store for the rewrite
that updates subject grade records inside the loop. -/
structure CumAcc where
  subjectGrades : List (String × SubjectTermGrade)
  totalGradePoints : ℚ
  totalCredits : ℚ
  earnedCredits : ℚ
  store : Store

/-- One iteration of the subject loop of the unnamed-file
calculateCumulativeGrade: the grades are computed against the fixed fetched
store and nothing is written inside the loop. -/
def p1CumStep (env : Env) (s : Store) (termId studentId asysId : String)
    (a : CumAcc) (subj : Subject) : CumAcc :=
  let tg := calculateSubjectTermGrade env s subj.id termId studentId (some asysId)
  { subjectGrades := recordUpdate a.subjectGrades subj.id tg
    totalGradePoints := a.totalGradePoints + tg.gradePoints * tg.credits
    totalCredits := a.totalCredits + tg.credits
    earnedCredits := a.earnedCredits + (if tg.isPassing then tg.credits else 0)
    store := a.store }

/-- One iteration of the subject loop of the GradeBookService.ts
calculateCumulativeGrade: grade points are additionally weighted by the
term weight and the subject grade record is updated through
updateSubjectGradeRecord inside the loop. -/
def gbsCumStep (env : Env) (gradeBookId termId studentId asysId : String) (w : ℚ)
    (a : CumAcc) (subj : Subject) : CumAcc :=
  let tg := calculateSubjectTermGrade env a.store subj.id termId studentId (some asysId)
  { subjectGrades := recordUpdate a.subjectGrades subj.id tg
    totalGradePoints := a.totalGradePoints + tg.gradePoints * w * tg.credits
    totalCredits := a.totalCredits + tg.credits
    earnedCredits := a.earnedCredits + (if tg.isPassing then tg.credits else 0)
    store := updateSubjectGradeRecordV2 env a.store gradeBookId subj.id termId studentId }

/-- The grade-book, class and class-group lookup chain shared by both
calculateCumulativeGrade rewrites; the relation includes of the source are
total by referential integrity, so a dangling reference surfaces as the
same error as a missing grade book. -/
def cumulativeLookups (s : Store) (gradeBookId : String) :
    Except String (GradeBookRow × ClassRow × ClassGroup) :=
  optElim (s.gradeBooks.find? (fun g => decide (g.id = gradeBookId)))
    (.error "Grade book not found")
    (fun gb =>
      optElim (s.classes.find? (fun c => decide (c.id = gb.classId)))
        (.error "Grade book not found")
        (fun cls =>
          optElim (s.classGroups.find? (fun g => decide (g.id = cls.classGroupId)))
            (.error "Grade book not found")
            (fun cg => .ok (gb, cls, cg))))

/-- calculateCumulativeGrade of the unnamed-file rewrite of
GradeBookService: per subject of the class group accumulate
totalGradePoints += gradePoints * credits and totalCredits += credits, add
credits to earnedCredits when the term grade is passing, divide when the
credit sum is positive, and upsert one TermResult row. -/
def calculateCumulativeGradeP1 (env : Env) (s : Store)
    (gradeBookId studentId termId : String) :
    Except String (CumulativeGrade × Store) :=
  exElim (cumulativeLookups s gradeBookId) .error
    (fun gbc =>
      let gb := gbc.1
      let cg := gbc.2.2
      let subjects := s.subjects.filter (fun x => decide (x.classGroupId = cg.id))
      let acc := subjects.foldl (p1CumStep env s termId studentId gb.assessmentSystemId)
        { subjectGrades := [], totalGradePoints := 0, totalCredits := 0,
          earnedCredits := 0, store := s }
      let gpa : ℚ := if 0 < acc.totalCredits then acc.totalGradePoints / acc.totalCredits else 0
      let s2 := recordTermResultP1 acc.store studentId termId gpa acc.totalCredits acc.earnedCredits
      .ok ({ gpa := gpa, totalCredits := acc.totalCredits,
             earnedCredits := acc.earnedCredits, subjectGrades := acc.subjectGrades }, s2))

/-- calculateCumulativeGrade of GradeBookService.ts. Its fetch includes the
program term structures together with their termSettings but never their
academicTerms, yet the term-structure lookup right after the null check
evaluates ts.academicTerms.some on each fetched structure: whenever the
program has a term structure, the first callback invocation dereferences
the absent relation and the call fails with a TypeError before the subject
loop runs. When the program has no term structures, Array.find returns
undefined without ever invoking the callback, the optional chain leaves
termSettings undefined, and the term weight falls back through the
JavaScript || to 1.0; the subject loop then multiplies each grade-point
value by that weight, updates each subject grade record through
updateSubjectGradeRecord, and the TermResult upsert stores the (absent)
customSettings payload as metadata. -/
def calculateCumulativeGradeGBS (env : Env) (s : Store)
    (gradeBookId studentId termId : String) :
    Except String (CumulativeGrade × Store) :=
  exElim (cumulativeLookups s gradeBookId) .error
    (fun gbc =>
      let gb := gbc.1
      let cg := gbc.2.2
      let fetchedTermStructures := s.programTermStructures.filter
        (fun p => decide (p.programId = cg.programId))
      if fetchedTermStructures.isEmpty then
        let termSettings : Option ClassGroupTermSettings := none
        let w := jsOrQ (termSettings.bind (fun t => t.weight)) 1
        let subjects := s.subjects.filter (fun x => decide (x.classGroupId = cg.id))
        let acc := subjects.foldl
          (gbsCumStep env gradeBookId termId studentId gb.assessmentSystemId w)
          { subjectGrades := [], totalGradePoints := 0, totalCredits := 0,
            earnedCredits := 0, store := s }
        let gpa : ℚ := if 0 < acc.totalCredits then acc.totalGradePoints / acc.totalCredits else 0
        let s2 := recordTermResultGBS acc.store studentId termId gpa acc.totalCredits
          acc.earnedCredits (termSettings.bind (fun t => t.customSettings))
        .ok ({ gpa := gpa, totalCredits := acc.totalCredits,
               earnedCredits := acc.earnedCredits, subjectGrades := acc.subjectGrades }, s2)
      else
        .error "TypeError: ts.academicTerms is undefined")

/-!
GradeValidationService.
-/

/-- validateGradeEntry of GradeValidationService.ts: push range errors for
negative or above-total obtained marks, return invalid early when the
assessment does not exist, push a duplicate error when a graded submission
already exists, and report valid exactly when no error accumulated. -/
def validateGradeEntry (s : Store) (entry : GradeEntry) : ValidationResult :=
  let errors : List String :=
    (if entry.obtainedMarks < 0 then ["Obtained marks cannot be negative"] else []) ++
    (if entry.totalMarks < entry.obtainedMarks then ["Obtained marks cannot exceed total marks"] else [])
  optElim (s.assessments.find? (fun a => decide (a.id = entry.assessmentId)))
    { isValid := false, errors := errors ++ ["Assessment not found"] }
    (fun _ =>
      let errors := errors ++
        (if s.assessmentSubmissions.any (fun sub =>
            decide (sub.assessmentId = entry.assessmentId ∧ sub.studentId = entry.studentId)
            && sub.gradedAt.isSome) then
          ["Grade entry already exists for this assessment"] else [])
      { isValid := errors.isEmpty, errors := errors })

/-!
Concrete stores and environments used by the witnesses and
counterexamples.
-/

/-- Store with every table empty. -/
def emptyStore : Store :=
  { termAssessmentPeriods := [], activities := [], activitySubmissions := [],
    subjects := [], markingSchemes := [], classes := [], classGroups := [],
    programs := [], assessmentSystems := [], classGroupAssessmentSettings := [],
    programTermStructures := [], classGroupTermSettings := [], gradeBooks := [],
    subjectGradeRecords := [], gradeHistory := [], termResults := [],
    assessments := [], assessmentSubmissions := [], nextId := 0 }

/-- Collaborator environment resolving no assessments and mapping every
grade point to 0. -/
def trivEnv : Env :=
  { getAssessmentForActivity := fun _ => none
    calculatePercentageFromMarkingScheme := fun _ _ _ => 0
    calculatePercentageFromRubric := fun _ _ => 0
    calculateGPA := fun _ _ => 0
    calculateSubmissionPercentage := fun _ _ => 0
    checkPassingCriteria := fun _ _ _ => false }

/-- Store of the weighted-aggregation example: one term with periods of
weights 1 and 2 whose submissions score 80 and 50 percent. -/
def c1Store : Store :=
  { emptyStore with
    termAssessmentPeriods := [
      { id := "p1", termId := "T", name := "P1", startDate := 0, endDate := 10, weight := 1 },
      { id := "p2", termId := "T", name := "P2", startDate := 20, endDate := 30, weight := 2 }]
    activities := [
      { id := "a1", subjectId := "S", createdAt := 5 },
      { id := "a2", subjectId := "S", createdAt := 25 }]
    activitySubmissions := [
      { id := "sub1", activityId := "a1", studentId := "stu", obtainedMarks := some 80,
        totalMarks := some 100, gradedAt := some 1, rubricScores := none },
      { id := "sub2", activityId := "a2", studentId := "stu", obtainedMarks := some 50,
        totalMarks := some 100, gradedAt := some 1, rubricScores := none }] }

example : (calculateAssessmentPeriodGrade trivEnv c1Store "S" "p1" "stu" (some "sys")).percentage = 80 := by
  simp +decide [calculateAssessmentPeriodGrade, periodAccum, submissionMatches, jsOrQ,
    c1Store, emptyStore, trivEnv]

example : (calculateSubjectTermGrade trivEnv c1Store "S" "T" "stu" (some "sys")).percentage = 60 := by
  simp +decide [calculateSubjectTermGrade, termAccumStep, calculateAssessmentPeriodGrade,
    periodAccum, submissionMatches, jsOrQ, recordUpdate, c1Store, emptyStore, trivEnv]
  norm_num

/-!
Claim C1: weighted term aggregation.
-/

/-- The period grades computed by calculateSubjectTermGrade, one per
assessment period of the term. -/
def periodGradesOf (env : Env) (s : Store) (subjectId termId studentId : String)
    (sysId : Option String) : List AssessmentPeriodGrade :=
  (s.termAssessmentPeriods.filter (fun p => decide (p.termId = termId))).map
    (fun p => calculateAssessmentPeriodGrade env s subjectId p.id studentId sysId)

/-- The weighted-total and weight-sum accumulators of the period loop equal
sums over the period grades. -/
theorem termAccum_foldl (env : Env) (s : Store) (subjectId studentId : String)
    (sysId : Option String) (l : List TermAssessmentPeriod)
    (a : List (String × AssessmentPeriodGrade) × ℚ × ℚ) :
    (l.foldl (termAccumStep env s subjectId studentId sysId) a).2.1 =
      a.2.1 + (l.map (fun p =>
        (calculateAssessmentPeriodGrade env s subjectId p.id studentId sysId).percentage *
        (calculateAssessmentPeriodGrade env s subjectId p.id studentId sysId).weight)).sum ∧
    (l.foldl (termAccumStep env s subjectId studentId sysId) a).2.2 =
      a.2.2 + (l.map (fun p =>
        (calculateAssessmentPeriodGrade env s subjectId p.id studentId sysId).weight)).sum := by
  induction l generalizing a with
  | nil => simp
  | cons p t ih =>
      simp only [List.foldl_cons, List.map_cons, List.sum_cons]
      constructor
      · rw [(ih _).1]; simp only [termAccumStep]; ring
      · rw [(ih _).2]; simp only [termAccumStep]; ring

/-- C1: for every term whose assessment periods have period grades with
percentages p and weights w, calculateSubjectTermGrade returns a final
percentage equal to the weight-sum quotient of the weighted percentages
whenever the weight sum is positive, and the finalGrade field equals the
percentage field. -/
theorem subjectTermGrade_weighted_aggregation (env : Env) (s : Store)
    (subjectId termId studentId : String) (sysId : Option String)
    (hw : 0 < ((periodGradesOf env s subjectId termId studentId sysId).map
      (fun g => g.weight)).sum) :
    (calculateSubjectTermGrade env s subjectId termId studentId sysId).percentage =
      ((periodGradesOf env s subjectId termId studentId sysId).map
        (fun g => g.percentage * g.weight)).sum /
      ((periodGradesOf env s subjectId termId studentId sysId).map
        (fun g => g.weight)).sum ∧
    (calculateSubjectTermGrade env s subjectId termId studentId sysId).finalGrade =
      (calculateSubjectTermGrade env s subjectId termId studentId sysId).percentage := by
  constructor
  · have hfold := termAccum_foldl env s subjectId studentId sysId
      (s.termAssessmentPeriods.filter (fun p => decide (p.termId = termId))) ([], 0, 0)
    simp only [periodGradesOf, List.map_map, Function.comp_def] at hw ⊢
    simp only [calculateSubjectTermGrade, hfold.1, hfold.2, zero_add]
    rw [if_pos hw]
  · rfl

/-- Witness for C1 at the spec example: weights 1 and 2 with percentages 80
and 50 give a term percentage of exactly 60. -/
theorem subjectTermGrade_weighted_aggregation_witness :
    (0 < ((periodGradesOf trivEnv c1Store "S" "T" "stu" (some "sys")).map
      (fun g => g.weight)).sum) ∧
    (calculateSubjectTermGrade trivEnv c1Store "S" "T" "stu" (some "sys")).percentage = 60 ∧
    (calculateSubjectTermGrade trivEnv c1Store "S" "T" "stu" (some "sys")).finalGrade = 60 := by
  have hw : 0 < ((periodGradesOf trivEnv c1Store "S" "T" "stu" (some "sys")).map
      (fun g => g.weight)).sum := by
    simp +decide [periodGradesOf, calculateAssessmentPeriodGrade, periodAccum,
      submissionMatches, jsOrQ, c1Store, emptyStore, trivEnv]
    norm_num
  have h := subjectTermGrade_weighted_aggregation trivEnv c1Store "S" "T" "stu" (some "sys") hw
  have hval : (calculateSubjectTermGrade trivEnv c1Store "S" "T" "stu" (some "sys")).percentage = 60 := by
    rw [h.1]
    simp +decide [periodGradesOf, calculateAssessmentPeriodGrade, periodAccum,
      submissionMatches, jsOrQ, c1Store, emptyStore, trivEnv]
    norm_num
  exact ⟨hw, hval, h.2.trans hval⟩

/-!
Claim C3: zero-weight safety of the term aggregation.
-/

/-- Finding a row by its id in a table with pairwise distinct ids returns
that row. -/
theorem find?_id_of_nodup (l : List TermAssessmentPeriod) (p : TermAssessmentPeriod)
    (hp : p ∈ l) (hnd : (l.map (fun q => q.id)).Nodup) :
    l.find? (fun q => decide (q.id = p.id)) = some p := by
  induction l with
  | nil => cases hp
  | cons q t ih =>
      simp only [List.map_cons, List.nodup_cons] at hnd
      by_cases h : q.id = p.id
      · have hqp : q = p := by
          rcases List.mem_cons.mp hp with rfl | hpt
          · rfl
          · exact absurd (h ▸ List.mem_map_of_mem (fun r => r.id) hpt) hnd.1
        rw [List.find?_cons_of_pos _ (by simp [h])]
        rw [hqp]
      · have hpt : p ∈ t := by
          rcases List.mem_cons.mp hp with rfl | hpt
          · exact absurd rfl h
          · exact hpt
        rw [List.find?_cons_of_neg _ (by simp [h])]
        exact ih hpt hnd.2

/-- C3: when every assessment period of the term has weight 0, the term
grade is the defined value 0 in both percentage and finalGrade; the source
takes the guarded else-branch instead of dividing by the zero weight sum,
and the embedding is a total function, so no fault occurs. -/
theorem subjectTermGrade_zero_weight_safe (env : Env) (s : Store)
    (subjectId termId studentId : String) (sysId : Option String)
    (hnd : (s.termAssessmentPeriods.map (fun p => p.id)).Nodup)
    (hw : ∀ p ∈ s.termAssessmentPeriods, p.termId = termId → p.weight = 0) :
    (calculateSubjectTermGrade env s subjectId termId studentId sysId).percentage = 0 ∧
    (calculateSubjectTermGrade env s subjectId termId studentId sysId).finalGrade = 0 := by
  have hzero : ∀ p ∈ s.termAssessmentPeriods.filter (fun p => decide (p.termId = termId)),
      (calculateAssessmentPeriodGrade env s subjectId p.id studentId sysId).weight = 0 := by
    intro p hp
    rw [List.mem_filter] at hp
    have hmem := hp.1
    have hterm : p.termId = termId := by simpa using hp.2
    have hfind := find?_id_of_nodup s.termAssessmentPeriods p hmem hnd
    simp only [calculateAssessmentPeriodGrade, hfind, jsOrQ]
    simp [hw p hmem hterm]
  have hfold := termAccum_foldl env s subjectId studentId sysId
    (s.termAssessmentPeriods.filter (fun p => decide (p.termId = termId))) ([], 0, 0)
  have hsum : ((s.termAssessmentPeriods.filter (fun p => decide (p.termId = termId))).map
      (fun p => (calculateAssessmentPeriodGrade env s subjectId p.id studentId sysId).weight)).sum = 0 := by
    apply List.sum_eq_zero
    intro x hx
    rw [List.mem_map] at hx
    obtain ⟨p, hp, rfl⟩ := hx
    exact hzero p hp
  constructor
  · simp only [calculateSubjectTermGrade, hfold.2, zero_add, hsum]
    rw [if_neg (by norm_num)]
  · simp only [calculateSubjectTermGrade, hfold.2, zero_add, hsum]
    rw [if_neg (by norm_num)]

/-- Store with a single assessment period of weight 0 in term T. -/
def c3Store : Store :=
  { emptyStore with
    termAssessmentPeriods := [
      { id := "p1", termId := "T", name := "P", startDate := 0, endDate := 10, weight := 0 }] }

/-- Witness for C3: a term whose single period has weight 0 yields
percentage 0 and finalGrade 0. -/
theorem subjectTermGrade_zero_weight_safe_witness :
    ((c3Store.termAssessmentPeriods.map (fun p => p.id)).Nodup) ∧
    (∀ p ∈ c3Store.termAssessmentPeriods, p.termId = "T" → p.weight = 0) ∧
    (calculateSubjectTermGrade trivEnv c3Store "S" "T" "stu" (some "sys")).percentage = 0 ∧
    (calculateSubjectTermGrade trivEnv c3Store "S" "T" "stu" (some "sys")).finalGrade = 0 := by
  have h1 : (c3Store.termAssessmentPeriods.map (fun p => p.id)).Nodup := by decide
  have h2 : ∀ p ∈ c3Store.termAssessmentPeriods, p.termId = "T" → p.weight = 0 := by decide
  have h := subjectTermGrade_zero_weight_safe trivEnv c3Store "S" "T" "stu" (some "sys") h1 h2
  exact ⟨h1, h2, h.1, h.2⟩

/-!
Claim C6: derivation of isPassing. The cited aggregators hardcode the
threshold 50 and never read a configured passing mark, so the claim is
settled as corrected: isPassing is always percentage at least 50,
regardless of the assessment system configuration.
-/

/-- C6 amended: both cited aggregators return isPassing equal to
(percentage at least 50), with the threshold hardcoded to 50; isPassing is
never set independently of the returned percentage. -/
theorem aggregator_isPassing_hardcoded_fifty (env : Env) (s : Store)
    (subjectId periodId termId studentId : String) (sysId : Option String) :
    ((calculateAssessmentPeriodGrade env s subjectId periodId studentId sysId).isPassing = true ↔
      50 ≤ (calculateAssessmentPeriodGrade env s subjectId periodId studentId sysId).percentage) ∧
    ((calculateSubjectTermGrade env s subjectId termId studentId sysId).isPassing = true ↔
      50 ≤ (calculateSubjectTermGrade env s subjectId termId studentId sysId).percentage) := by
  constructor
  · simp [calculateAssessmentPeriodGrade]
  · simp [calculateSubjectTermGrade]

/-- Store for the C6 counterexample: the assessment system sys has a
marking scheme configuring passingMarks 40, and the single submission
scores 45 percent. -/
def c6Store : Store :=
  { emptyStore with
    termAssessmentPeriods := [
      { id := "p1", termId := "T", name := "P", startDate := 0, endDate := 10, weight := 1 }]
    activities := [{ id := "a1", subjectId := "S", createdAt := 5 }]
    activitySubmissions := [
      { id := "sub1", activityId := "a1", studentId := "stu", obtainedMarks := some 45,
        totalMarks := some 100, gradedAt := some 1, rubricScores := none }]
    markingSchemes := [
      { id := "ms", assessmentSystemId := "sys", maxMarks := 100, passingMarks := 40 }] }

/-- Counterexample to C6 as stated: the effective assessment system
configures a passing threshold of 40 and the period percentage is 45, so
the claim predicts isPassing true; the code hardcodes 50 at
SubjectGradeManager.ts line 114 and returns false. -/
theorem isPassing_ignores_configured_threshold :
    (c6Store.markingSchemes.find? (fun m => decide (m.assessmentSystemId = "sys"))).map
      (fun m => m.passingMarks) = some 40 ∧
    (calculateAssessmentPeriodGrade trivEnv c6Store "S" "p1" "stu" (some "sys")).percentage = 45 ∧
    (40:ℚ) ≤ 45 ∧
    (calculateAssessmentPeriodGrade trivEnv c6Store "S" "p1" "stu" (some "sys")).isPassing = false := by
  refine ⟨by decide, ?_, by norm_num, ?_⟩
  · simp +decide [calculateAssessmentPeriodGrade, periodAccum, submissionMatches, jsOrQ,
      c6Store, emptyStore, trivEnv]
  · simp +decide [calculateAssessmentPeriodGrade, periodAccum, submissionMatches, jsOrQ,
      c6Store, emptyStore, trivEnv]

/-!
Claim C7: behaviour on a nonexistent assessment-period id. The source has
no throw on this path: the null period flows through optional chaining,
the date bounds of the submission query become undefined and are dropped,
and a grade with weight 0 is returned. The claim is settled as corrected.
-/

/-- C7 amended: for a period id that does not exist,
calculateAssessmentPeriodGrade does not fail; it returns a grade whose
weight defaults to 0, and the submission filter degenerates to the
date-free condition (subject match, student match, graded), so every graded
submission of the subject is included. -/
theorem periodGrade_missing_period_default (env : Env) (s : Store)
    (subjectId periodId studentId : String) (sysId : Option String)
    (h : s.termAssessmentPeriods.find? (fun p => decide (p.id = periodId)) = none) :
    (calculateAssessmentPeriodGrade env s subjectId periodId studentId sysId).weight = 0 ∧
    ∀ sub, submissionMatches s.activities subjectId
        (s.termAssessmentPeriods.find? (fun p => decide (p.id = periodId))) studentId sub =
      optElim (s.activities.find? (fun a => decide (a.id = sub.activityId))) false
        (fun a => decide (a.subjectId = subjectId) && decide (sub.studentId = studentId) &&
          sub.gradedAt.isSome) := by
  constructor
  · simp [calculateAssessmentPeriodGrade, h, jsOrQ]
  · intro sub
    rw [h]
    simp [submissionMatches, Bool.and_assoc]

/-- Store for C7: no assessment periods at all, one graded submission of
the subject. -/
def c7Store : Store :=
  { emptyStore with
    activities := [{ id := "a1", subjectId := "S", createdAt := 5 }]
    activitySubmissions := [
      { id := "sub1", activityId := "a1", studentId := "stu", obtainedMarks := some 80,
        totalMarks := some 100, gradedAt := some 1, rubricScores := none }] }

/-- Witness for the amended C7 at a concrete store without the requested
period. -/
theorem periodGrade_missing_period_default_witness :
    (c7Store.termAssessmentPeriods.find? (fun p => decide (p.id = "missing")) = none) ∧
    (calculateAssessmentPeriodGrade trivEnv c7Store "S" "missing" "stu" (some "sys")).weight = 0 := by
  have h : c7Store.termAssessmentPeriods.find? (fun p => decide (p.id = "missing")) = none := by
    decide
  exact ⟨h, (periodGrade_missing_period_default trivEnv c7Store "S" "missing" "stu"
    (some "sys") h).1⟩

/-- Counterexample to C7 as stated: with no period of the requested id in
the store, the call still produces a grade (percentage 80 from the graded
submission, weight 0) instead of failing with NotFound; the embedded
function is total because the source body contains no throw. -/
theorem periodGrade_missing_period_returns_grade :
    c7Store.termAssessmentPeriods = [] ∧
    (calculateAssessmentPeriodGrade trivEnv c7Store "S" "missing" "stu" (some "sys")).percentage = 80 ∧
    (calculateAssessmentPeriodGrade trivEnv c7Store "S" "missing" "stu" (some "sys")).obtainedMarks = 80 ∧
    (calculateAssessmentPeriodGrade trivEnv c7Store "S" "missing" "stu" (some "sys")).weight = 0 := by
  refine ⟨rfl, ?_, ?_, ?_⟩ <;>
    simp +decide [calculateAssessmentPeriodGrade, periodAccum, submissionMatches, jsOrQ,
      c7Store, emptyStore, trivEnv]

/-!
Claim C2: weighted accumulation of the config-taking period aggregator.
The five-parameter rewrite accumulates exactly as the claim describes; the
four-parameter rewrite cited alongside it does not, so the claim is
settled as corrected with a counterexample against the latter.
-/

/-- The scored submissions of the weighted loop: percentage and derived
weight for every submission whose assessment resolves. -/
def scoredList (env : Env) (config : SubjectAssessmentConfig)
    (l : List ActivitySubmission) : List (ℚ × ℚ) :=
  l.filterMap (fun sub => (env.getAssessmentForActivity sub.activityId).map
    (fun a => (env.calculateSubmissionPercentage sub a,
               getAssessmentWeight a.type config.weightageDistribution)))

/-- The weighted accumulator of the config-taking loop equals sums over the
scored submissions. -/
theorem cfgAccum_foldl (env : Env) (config : SubjectAssessmentConfig)
    (l : List ActivitySubmission) (a : ℚ × ℚ) :
    (l.foldl (cfgAccumStep env config) a).1 =
      a.1 + ((scoredList env config l).map (fun pw => pw.1 * pw.2)).sum ∧
    (l.foldl (cfgAccumStep env config) a).2 =
      a.2 + ((scoredList env config l).map (fun pw => pw.2)).sum := by
  induction l generalizing a with
  | nil => simp [scoredList]
  | cons sub t ih =>
      cases h : env.getAssessmentForActivity sub.activityId with
      | none =>
          simp only [List.foldl_cons, scoredList, List.filterMap_cons, h, Option.map_none]
          exact ⟨by rw [(ih _).1]; simp [cfgAccumStep, h, scoredList],
                 by rw [(ih _).2]; simp [cfgAccumStep, h, scoredList]⟩
      | some assessment =>
          simp only [List.foldl_cons, scoredList, List.filterMap_cons, h, Option.map_some]
          constructor
          · rw [(ih _).1]; simp [cfgAccumStep, h, scoredList]; ring
          · rw [(ih _).2]; simp [cfgAccumStep, h, scoredList]; ring

/-- C2 amended: the five-parameter calculateAssessmentPeriodGrade (the one
taking a SubjectAssessmentConfig) accumulates totalWeightedScore and
totalWeight over the submissions as the claim states, returns
totalWeightedScore divided by totalWeight when totalWeight is positive and
0 otherwise, and the assessment weight defaults to 1 when the weightage
distribution is absent or empty. The four-parameter rewrite cited by the
claim behaves differently, see the counterexample. -/
theorem periodGradeCfg_weighted_accumulation (env : Env) (s : Store)
    (subjectId periodId studentId : String) (sysId : Option String)
    (config : SubjectAssessmentConfig) :
    (calculateAssessmentPeriodGradeCfg env s subjectId periodId studentId sysId config).percentage =
      (if 0 < ((scoredList env config (getSubmissionsForPeriod s subjectId periodId studentId)).map
          (fun pw => pw.2)).sum then
        ((scoredList env config (getSubmissionsForPeriod s subjectId periodId studentId)).map
          (fun pw => pw.1 * pw.2)).sum /
        ((scoredList env config (getSubmissionsForPeriod s subjectId periodId studentId)).map
          (fun pw => pw.2)).sum
       else 0) ∧
    (calculateAssessmentPeriodGradeCfg env s subjectId periodId studentId sysId config).obtainedMarks =
      ((scoredList env config (getSubmissionsForPeriod s subjectId periodId studentId)).map
        (fun pw => pw.1 * pw.2)).sum ∧
    (∀ ty, getAssessmentWeight ty none = 1) ∧
    (∀ ty, getAssessmentWeight ty (some []) = 1) := by
  have hfold := cfgAccum_foldl env config
    (getSubmissionsForPeriod s subjectId periodId studentId) (0, 0)
  refine ⟨?_, ?_, fun ty => rfl, fun ty => rfl⟩
  · simp only [calculateAssessmentPeriodGradeCfg, hfold.1, hfold.2, zero_add]
  · simp only [calculateAssessmentPeriodGradeCfg, hfold.1, zero_add]

/-- Environment for the C2 counterexample: every activity resolves to an
assessment of an unconfigured category, scored by the marks ratio. -/
def c2Env : Env :=
  { trivEnv with
    getAssessmentForActivity := fun _ =>
      some { type := "OTHER", markingSchemeId := none, rubricId := none }
    calculateSubmissionPercentage := fun sub _ =>
      jsOrQ sub.obtainedMarks 0 / max 1 (jsOrQ sub.totalMarks 0) * 100 }

/-- Store for the C2 counterexample: one period of term T, two graded
submissions scoring 80 and 40 percent. -/
def c2Store : Store :=
  { emptyStore with
    termAssessmentPeriods := [
      { id := "p", termId := "T", name := "P", startDate := 0, endDate := 100, weight := 1 }]
    activities := [
      { id := "a1", subjectId := "S", createdAt := 5 },
      { id := "a2", subjectId := "S", createdAt := 6 }]
    activitySubmissions := [
      { id := "sub1", activityId := "a1", studentId := "stu", obtainedMarks := some 80,
        totalMarks := some 100, gradedAt := some 1, rubricScores := none },
      { id := "sub2", activityId := "a2", studentId := "stu", obtainedMarks := some 40,
        totalMarks := some 100, gradedAt := some 1, rubricScores := none }] }

/-- Definition following the words of the claim, for comparison: the
weighted running average of submission percentages with weights from the
weightage distribution, default 1. -/
def claimWeightedPeriodPercentage (env : Env) (s : Store)
    (subjectId periodId studentId : String) (config : SubjectAssessmentConfig) : ℚ :=
  if 0 < ((scoredList env config (getSubmissionsForPeriod s subjectId periodId studentId)).map
      (fun pw => pw.2)).sum then
    ((scoredList env config (getSubmissionsForPeriod s subjectId periodId studentId)).map
      (fun pw => pw.1 * pw.2)).sum /
    ((scoredList env config (getSubmissionsForPeriod s subjectId periodId studentId)).map
      (fun pw => pw.2)).sum
  else 0

/-- Counterexample to C2 as stated: on two graded submissions scoring 80
and 40 with default weight 1, the claim predicts the weighted average 60,
but the four-parameter calculateAssessmentPeriodGrade cited by the claim
(SubjectGradeManager.ts lines 64 to 105) overwrites its percentage local
per submission and returns 40, the score of the last submission. -/
theorem periodGradeV1_not_weighted_average :
    (calculateAssessmentPeriodGrade c2Env c2Store "S" "p" "stu" (some "sys")).percentage = 40 ∧
    claimWeightedPeriodPercentage c2Env c2Store "S" "p" "stu"
      { weightageDistribution := none } = 60 ∧
    ¬ ((40:ℚ) = 60) := by
  refine ⟨?_, ?_, by norm_num⟩
  · simp +decide [calculateAssessmentPeriodGrade, periodAccum, submissionMatches, jsOrQ,
      c2Store, c2Env, emptyStore, trivEnv]
  · simp +decide [claimWeightedPeriodPercentage, scoredList, getSubmissionsForPeriod,
      getAssessmentWeight, submissionMatches, jsOrQ, c2Store, c2Env, emptyStore, trivEnv]
    norm_num

/-!
Claim C5: override precedence of mergeTermSettings.
-/

/-- C5: resolving a term structure against a customized override replaces
exactly the terms whose id matches an override entry, taking the override
dates and assessment periods while keeping the identity fields, and
returns every non-overridden term unchanged at its position. -/
theorem mergeTermSettings_override_precedence (terms : List AcademicTerm)
    (cs : CustomSettings) (i : ℕ) (h : i < terms.length) :
    ∃ t r, terms[i]? = some t ∧ (mergeTermSettings terms (some cs))[i]? = some r ∧
      r.id = t.id ∧ r.name = t.name ∧ r.termType = t.termType ∧ r.termId = t.termId ∧
      (cs.terms.find? (fun ct => decide (ct.termId = t.id)) = none → r = t) ∧
      (∀ ct, cs.terms.find? (fun ct2 => decide (ct2.termId = t.id)) = some ct →
        r.startDate = ct.startDate ∧ r.endDate = ct.endDate ∧
        r.assessmentPeriods = ct.assessmentPeriods) := by
  have ht : terms[i]? = some terms[i] := List.getElem?_eq_getElem h
  refine ⟨terms[i],
    optElim (cs.terms.find? (fun ct => decide (ct.termId = terms[i].id))) terms[i]
      (applyCustomTerm terms[i]), ht, ?_, ?_⟩
  · simp [mergeTermSettings, List.getElem?_map, ht]
  · cases hf : cs.terms.find? (fun ct => decide (ct.termId = terms[i].id)) with
    | none => simp [hf]
    | some ct => simp [hf, applyCustomTerm]

/-- Term A of the C5 witness. -/
def c5TermA : AcademicTerm :=
  { id := "A", name := "Term A", startDate := 0, endDate := 10, termType := "SEMESTER",
    termId := "calA", assessmentPeriods := [] }

/-- Term B of the C5 witness. -/
def c5TermB : AcademicTerm :=
  { id := "B", name := "Term B", startDate := 20, endDate := 30, termType := "SEMESTER",
    termId := "calB", assessmentPeriods := [] }

/-- Override payload of the C5 witness: it changes the dates of term A
only. -/
def c5CS : CustomSettings :=
  { terms := [{ termId := "A", startDate := 100, endDate := 200, assessmentPeriods := [] }] }

/-- Witness for C5 at the overridden term A of a two-term structure. -/
theorem mergeTermSettings_override_precedence_witness :
    ∃ t r, [c5TermA, c5TermB][0]? = some t ∧
      (mergeTermSettings [c5TermA, c5TermB] (some c5CS))[0]? = some r ∧
      r.id = t.id ∧ r.name = t.name ∧ r.termType = t.termType ∧ r.termId = t.termId ∧
      (c5CS.terms.find? (fun ct => decide (ct.termId = t.id)) = none → r = t) ∧
      (∀ ct, c5CS.terms.find? (fun ct2 => decide (ct2.termId = t.id)) = some ct →
        r.startDate = ct.startDate ∧ r.endDate = ct.endDate ∧
        r.assessmentPeriods = ct.assessmentPeriods) :=
  mergeTermSettings_override_precedence [c5TermA, c5TermB] c5CS 0 (by norm_num)

/-!
Claim C10: range validation of grade entries.
-/

/-- C10: validateGradeEntry reports isValid false whenever the obtained
marks are negative or exceed the total marks, and the corresponding error
message is accumulated; an out-of-range mark is never reported valid. -/
theorem validateGradeEntry_rejects_out_of_range (s : Store) (entry : GradeEntry)
    (h : entry.obtainedMarks < 0 ∨ entry.totalMarks < entry.obtainedMarks) :
    (validateGradeEntry s entry).isValid = false ∧
    (entry.obtainedMarks < 0 →
      "Obtained marks cannot be negative" ∈ (validateGradeEntry s entry).errors) ∧
    (entry.totalMarks < entry.obtainedMarks →
      "Obtained marks cannot exceed total marks" ∈ (validateGradeEntry s entry).errors) := by
  unfold validateGradeEntry
  cases hf : s.assessments.find? (fun a => decide (a.id = entry.assessmentId)) with
  | none =>
      simp only [hf, optElim_none]
      refine ⟨by simp, ?_, ?_⟩
      · intro h1; simp [h1]
      · intro h2; simp [h2]
  | some a =>
      simp only [hf, optElim_some]
      refine ⟨?_, ?_, ?_⟩
      · rcases h with h1 | h2
        · by_cases h2 : entry.totalMarks < entry.obtainedMarks <;> simp [h1, h2]
        · by_cases h1 : entry.obtainedMarks < 0 <;> simp [h1, h2]
      · intro h1; simp [h1]
      · intro h2; simp [h2]

/-- Grade entry of the C10 witness: negative obtained marks. -/
def c10Entry : GradeEntry :=
  { studentId := "stu", assessmentId := "x", obtainedMarks := -5, totalMarks := 10,
    submissionDate := 0 }

/-- Witness for C10 at a concrete negative-marks entry. -/
theorem validateGradeEntry_rejects_out_of_range_witness :
    (c10Entry.obtainedMarks < 0 ∨ c10Entry.totalMarks < c10Entry.obtainedMarks) ∧
    (validateGradeEntry emptyStore c10Entry).isValid = false ∧
    "Obtained marks cannot be negative" ∈ (validateGradeEntry emptyStore c10Entry).errors := by
  have h : c10Entry.obtainedMarks < 0 ∨ c10Entry.totalMarks < c10Entry.obtainedMarks :=
    Or.inl (by norm_num [c10Entry])
  have ht := validateGradeEntry_rejects_out_of_range emptyStore c10Entry h
  exact ⟨h, ht.1, ht.2.1 (by norm_num [c10Entry])⟩

/-!
Claim C9: merge behaviour of updateSubjectGradeRecord. The second rewrite
of SubjectGradeManager.ts spreads the new term entry over the parsed
existing termGrades and appends a SYSTEM history row; the third rewrite,
also cited by the claim, overwrites termGrades with only the new entry and
writes no history, so the claim is settled as corrected.
-/

/-- Updating the entry of key k in place keeps it findable as the first
match and carries the new value. -/
theorem find?_map_update {α : Type} (m : List (String × α)) (k : String) (v : α)
    (h : m.any (fun p => decide (p.1 = k)) = true) :
    (m.map (fun p => if p.1 = k then (k, v) else p)).find? (fun p => decide (p.1 = k)) =
      some (k, v) := by
  induction m with
  | nil => simp at h
  | cons q t ih =>
      by_cases hq : q.1 = k
      · simp only [List.map_cons, if_pos hq]
        rw [List.find?_cons_of_pos _ (by simp)]
      · simp only [List.map_cons, if_neg hq]
        rw [List.find?_cons_of_neg _ (by simp [hq])]
        apply ih
        simpa [hq] using h

/-- Updating the entry of key k leaves the lookup of every other key
untouched. -/
theorem find?_map_update_other {α : Type} (m : List (String × α)) (k : String) (v : α)
    (k2 : String) (hne : k2 ≠ k) :
    (m.map (fun p => if p.1 = k then (k, v) else p)).find? (fun p => decide (p.1 = k2)) =
      m.find? (fun p => decide (p.1 = k2)) := by
  induction m with
  | nil => simp
  | cons q t ih =>
      by_cases hq : q.1 = k
      · have hq2 : ¬ (q.1 = k2) := by rw [hq]; exact fun hh => hne hh.symm
        simp only [List.map_cons, if_pos hq]
        rw [List.find?_cons_of_neg _ (by simp; exact fun hh => hne hh.symm),
            List.find?_cons_of_neg _ (by simp [hq2])]
        exact ih
      · simp only [List.map_cons, if_neg hq]
        by_cases hq2 : q.1 = k2
        · rw [List.find?_cons_of_pos _ (by simp [hq2]), List.find?_cons_of_pos _ (by simp [hq2])]
        · rw [List.find?_cons_of_neg _ (by simp [hq2]), List.find?_cons_of_neg _ (by simp [hq2])]
          exact ih

/-- After a recordUpdate the updated key holds the new value. -/
theorem lookupKey_recordUpdate_self {α : Type} (m : List (String × α)) (k : String) (v : α) :
    lookupKey (recordUpdate m k v) k = some v := by
  unfold recordUpdate lookupKey
  by_cases h : m.any (fun p => decide (p.1 = k)) = true
  · rw [if_pos h, find?_map_update m k v h]; rfl
  · rw [if_neg h]
    have hnone : m.find? (fun p => decide (p.1 = k)) = none := by
      rw [List.find?_eq_none]
      intro x hx hpx
      exact h (List.any_eq_true.mpr ⟨x, hx, hpx⟩)
    rw [List.find?_append, hnone]
    simp

/-- After a recordUpdate every other key looks up to its previous value. -/
theorem lookupKey_recordUpdate_other {α : Type} (m : List (String × α)) (k : String) (v : α)
    (k2 : String) (hne : k2 ≠ k) :
    lookupKey (recordUpdate m k v) k2 = lookupKey m k2 := by
  unfold recordUpdate lookupKey
  by_cases h : m.any (fun p => decide (p.1 = k)) = true
  · rw [if_pos h, find?_map_update_other m k v k2 hne]
  · rw [if_neg h, List.find?_append]
    have happ : ([(k, v)].find? (fun p => decide (p.1 = k2))) = none := by
      simp
      exact fun hh => hne hh.symm
    cases hm : m.find? (fun p => decide (p.1 = k2)) with
    | some p => simp [hm]
    | none => simp [hm, happ]

/-- Updating the record of a given id in a table keeps it findable as the
first match of that id, carrying the update, for any id-preserving
update. -/
theorem find?_records_update (l : List SubjectGradeRecord) (rid : String)
    (f : SubjectGradeRecord → SubjectGradeRecord) (hf : ∀ x, (f x).id = x.id)
    (r : SubjectGradeRecord)
    (h : l.find? (fun x => decide (x.id = rid)) = some r) :
    (l.map (fun x => if x.id = rid then f x else x)).find? (fun x => decide (x.id = rid)) =
      some (f r) := by
  induction l with
  | nil => simp at h
  | cons q t ih =>
      by_cases hq : q.id = rid
      · rw [List.find?_cons_of_pos _ (by simp [hq])] at h
        cases h
        simp only [List.map_cons, if_pos hq]
        rw [List.find?_cons_of_pos _ (by simp [hf, hq])]
      · rw [List.find?_cons_of_neg _ (by simp [hq])] at h
        simp only [List.map_cons, if_neg hq]
        rw [List.find?_cons_of_neg _ (by simp [hq])]
        exact ih h

/-- The grade-history row appended by the second rewrite of
updateSubjectGradeRecord: actor SYSTEM, the final grade of the computed
term grade. -/
def historyEntryFor (studentId subjectId : String) (tg : SubjectTermGrade) :
    GradeHistoryEntry :=
  { studentId := studentId, subjectId := subjectId, gradeValue := tg.finalGrade,
    modifiedBy := "SYSTEM", reason := "Term grade calculation" }

/-- C9 amended: the updateSubjectGradeRecord of the second rewrite (lines
447 to 489), applied to a store holding the record of the grade book and
subject, leaves a record that holds the freshly computed term grade under
the given term id, every other term entry unchanged, and appends exactly
one grade-history row with actor SYSTEM; the third rewrite instead
replaces the whole termGrades map and writes no history, see the
counterexample. -/
theorem updateSubjectGradeRecordV2_merges (env : Env) (s : Store)
    (gradeBookId subjectId termId studentId : String) (r : SubjectGradeRecord)
    (hr : s.subjectGradeRecords.find?
      (fun x => decide (x.id = gradeBookId ++ "_" ++ subjectId)) = some r) :
    ∃ r2, (updateSubjectGradeRecordV2 env s gradeBookId subjectId termId
        studentId).subjectGradeRecords.find?
        (fun x => decide (x.id = gradeBookId ++ "_" ++ subjectId)) = some r2 ∧
      lookupKey r2.termGrades termId =
        some (calculateSubjectTermGrade env s subjectId termId studentId (some gradeBookId)) ∧
      (∀ k, k ≠ termId → lookupKey r2.termGrades k = lookupKey r.termGrades k) ∧
      (updateSubjectGradeRecordV2 env s gradeBookId subjectId termId studentId).gradeHistory =
        s.gradeHistory ++ [historyEntryFor studentId subjectId
          (calculateSubjectTermGrade env s subjectId termId studentId (some gradeBookId))] := by
  have hmem := List.mem_of_find?_eq_some hr
  have hpred := List.find?_some hr
  have hany : s.subjectGradeRecords.any
      (fun x => decide (x.id = gradeBookId ++ "_" ++ subjectId)) = true :=
    List.any_eq_true.mpr ⟨r, hmem, hpred⟩
  refine ⟨{ r with termGrades := recordUpdate r.termGrades termId (calculateSubjectTermGrade env s subjectId termId studentId (some gradeBookId)) }, ?_, ?_, ?_, ?_⟩
  · simp only [updateSubjectGradeRecordV2, hr, optElim_some, if_pos hany]
    exact find?_records_update s.subjectGradeRecords (gradeBookId ++ "_" ++ subjectId) (fun x => { x with termGrades := recordUpdate r.termGrades termId (calculateSubjectTermGrade env s subjectId termId studentId (some gradeBookId)) }) (fun x => rfl) r hr
  · exact lookupKey_recordUpdate_self _ _ _
  · intro k hk
    exact lookupKey_recordUpdate_other _ _ _ _ hk
  · simp only [updateSubjectGradeRecordV2, historyEntryFor]

/-- The pre-existing term grade of the C9 stores. -/
def g9 : SubjectTermGrade :=
  { termId := "T1", periodGrades := [], finalGrade := 77, totalMarks := 0,
    percentage := 77, isPassing := true, gradePoints := 3, credits := 3 }

/-- The pre-existing subject grade record of the C9 stores, holding a term
grade for term T1. -/
def c9Record : SubjectGradeRecord :=
  { id := "gb_sub", gradeBookId := "gb", subjectId := "sub",
    termGrades := [("T1", g9)], assessmentPeriodGrades := [] }

/-- Store of the C9 witness and counterexample. -/
def c9Store : Store := { emptyStore with subjectGradeRecords := [c9Record] }

/-- Witness for the amended C9 at a concrete record holding an entry for
another term. -/
theorem updateSubjectGradeRecordV2_merges_witness :
    ∃ r2, (updateSubjectGradeRecordV2 trivEnv c9Store "gb" "sub" "T2"
        "stu").subjectGradeRecords.find?
        (fun x => decide (x.id = "gb" ++ "_" ++ "sub")) = some r2 ∧
      lookupKey r2.termGrades "T2" =
        some (calculateSubjectTermGrade trivEnv c9Store "sub" "T2" "stu" (some "gb")) ∧
      (∀ k, k ≠ "T2" → lookupKey r2.termGrades k = lookupKey c9Record.termGrades k) ∧
      (updateSubjectGradeRecordV2 trivEnv c9Store "gb" "sub" "T2" "stu").gradeHistory =
        c9Store.gradeHistory ++ [historyEntryFor "stu" "sub"
          (calculateSubjectTermGrade trivEnv c9Store "sub" "T2" "stu" (some "gb"))] := by
  have hr : c9Store.subjectGradeRecords.find?
      (fun x => decide (x.id = "gb" ++ "_" ++ "sub")) = some c9Record := by decide
  exact updateSubjectGradeRecordV2_merges trivEnv c9Store "gb" "sub" "T2" "stu" c9Record hr

/-- Counterexample to C9 as stated: the third rewrite of
updateSubjectGradeRecord (lines 660 to 689), run against a record holding
an entry for term T1, leaves a record in which the T1 entry is gone and
appends no grade history. -/
theorem updateSubjectGradeRecordV3_replaces :
    ((updateSubjectGradeRecordV3 trivEnv c9Store "gb" "sub" "T2"
        "stu").subjectGradeRecords.find?
        (fun x => decide (x.gradeBookId = "gb" ∧ x.subjectId = "sub"))).map
      (fun r2 => lookupKey r2.termGrades "T1") = some none ∧
    (updateSubjectGradeRecordV3 trivEnv c9Store "gb" "sub" "T2" "stu").gradeHistory =
      c9Store.gradeHistory := by
  constructor
  · simp +decide [updateSubjectGradeRecordV3, calculateSubjectTermGrade, termAccumStep,
      lookupKey, jsOrQ, c9Store, c9Record, emptyStore, trivEnv, g9]
  · rfl

/-!
Claim C8: atomicity of createClassWithInheritance. Every write of the
source body goes through the transaction client inside one interactive
transaction, and the collaborator calls only read; the embedding mirrors
this by threading the transaction store and committing it only on success,
so a failure at any step leaves the committed store exactly as it was.
-/

/-- C8: createClassWithInheritance is atomic. On any error the committed
store is unchanged, so no class, grade book or subject grade record
persists; on success the returned class is stored together with a grade
book for it and one subject grade record per subject of the class group,
so a class never exists with a partially initialized grade book. -/
theorem createClassWithInheritance_atomic (s0 : Store) (input : CreateClassInput) :
    (∀ e, createClassWithInheritance s0 input = .error e →
       createClassCommittedStore s0 input = s0) ∧
    (∀ c s, createClassWithInheritance s0 input = .ok (c, s) →
       c ∈ s.classes ∧
       ∃ gb, gb ∈ s.gradeBooks ∧ gb.classId = c.id ∧
         ∀ subj ∈ s0.subjects.filter (fun x => decide (x.classGroupId = input.classGroupId)),
           ∃ rec, rec ∈ s.subjectGradeRecords ∧ rec.gradeBookId = gb.id ∧
             rec.subjectId = subj.id) := by
  constructor
  · intro e he
    unfold createClassCommittedStore
    rw [he]
    rfl
  · intro c s hok
    cases h1 : inheritClassGroupTerms s0 input.classGroupId (genId s0.nextId) with
    | error e => simp [createClassWithInheritance, h1] at hok
    | ok ts =>
        cases h2 : resolveAndInheritAssessmentSystem s0 input.classGroupId with
        | error e => simp [createClassWithInheritance, h1, h2] at hok
        | ok asys =>
            cases h3 : s0.classGroups.find? (fun g => decide (g.id = input.classGroupId)) with
            | none =>
                simp [createClassWithInheritance, initializeSubjectGradeRecords,
                  h1, h2, h3] at hok
            | some cg =>
                simp only [createClassWithInheritance, initializeSubjectGradeRecords,
                  h1, h2, h3, exElim_ok, optElim_some, Except.ok.injEq, Prod.mk.injEq] at hok
                obtain ⟨hc, hs⟩ := hok
                subst hc
                subst hs
                constructor
                · apply List.mem_map.mpr
                  refine ⟨_, List.mem_append_right _ (List.mem_cons_self _ _), ?_⟩
                  simp
                · refine ⟨{ id := genId (s0.nextId + 1), classId := genId s0.nextId, assessmentSystemId := asys.id, termStructureId := some ts.id }, ?_, ?_, ?_⟩
                  · exact List.mem_append_right _ (List.mem_cons_self _ _)
                  · rfl
                  · intro subj hsubj
                    refine ⟨{ id := genId (s0.nextId + 1) ++ "_" ++ subj.id, gradeBookId := genId (s0.nextId + 1), subjectId := subj.id, termGrades := [], assessmentPeriodGrades := [] }, ?_, ?_, ?_⟩
                    · exact List.mem_append_right _ (List.mem_map_of_mem _ hsubj)
                    · rfl
                    · rfl

/-- Class-creation input of the C8 witness. -/
def c8Input : CreateClassInput := { name := "C", classGroupId := "cg1", capacity := 30 }

/-- Store on which createClassWithInheritance fails after the class create:
the class group and a term structure exist, but the program has no
assessment system, so the resolve step throws inside the transaction. -/
def c8FailStore : Store :=
  { emptyStore with
    classGroups := [{ id := "cg1", programId := "pr1" }]
    programs := [{ id := "pr1", assessmentSystemId := none }]
    programTermStructures := [{ id := "ts1", programId := "pr1", academicTerms := [] }] }

/-- Store on which createClassWithInheritance succeeds: one class group
with one subject, a program with an assessment system, and a term
structure. -/
def c8OkStore : Store :=
  { c8FailStore with
    programs := [{ id := "pr1", assessmentSystemId := some "as1" }]
    assessmentSystems := [{ id := "as1", name := "AS", type := "MARKING_SCHEME" }]
    subjects := [{ id := "sub1", classGroupId := "cg1", credits := none }] }

/-- The class row returned by the successful C8 witness call. -/
def c8Class : ClassRow :=
  { id := "gen_0", name := "C", classGroupId := "cg1", capacity := 30, status := "ACTIVE",
    termStructureId := some "ts1" }

/-- The committed store of the successful C8 witness call. -/
def c8StoreAfter : Store := createClassCommittedStore c8OkStore c8Input

/-- Witness for C8: on the failing store the call errors and the committed
store is bit-for-bit the initial one (full rollback of the already-created
class row); on the succeeding store the returned class is stored with its
grade book and a subject grade record per class-group subject. -/
theorem createClassWithInheritance_atomic_witness :
    (∃ e, createClassWithInheritance c8FailStore c8Input = .error e) ∧
    createClassCommittedStore c8FailStore c8Input = c8FailStore ∧
    (∃ c s, createClassWithInheritance c8OkStore c8Input = .ok (c, s) ∧ c ∈ s.classes ∧
      ∃ gb, gb ∈ s.gradeBooks ∧ gb.classId = c.id ∧
        ∀ subj ∈ c8OkStore.subjects.filter (fun x => decide (x.classGroupId = "cg1")),
          ∃ rec, rec ∈ s.subjectGradeRecords ∧ rec.gradeBookId = gb.id ∧
            rec.subjectId = subj.id) := by
  have he : createClassWithInheritance c8FailStore c8Input =
      .error "AssessmentSystem not found for program of ClassGroup cg1" := by rfl
  have hok : createClassWithInheritance c8OkStore c8Input = .ok (c8Class, c8StoreAfter) := by
    rfl
  refine ⟨⟨_, he⟩, (createClassWithInheritance_atomic c8FailStore c8Input).1 _ he,
    c8Class, c8StoreAfter, hok, ?_⟩
  exact (createClassWithInheritance_atomic c8OkStore c8Input).2 c8Class c8StoreAfter hok

/-!
Claim C4: the cumulative GPA accumulation. The unnamed-file rewrite
accumulates exactly gradePoints times credits. The GradeBookService.ts
rewrite intends the same loop with a term-settings weight, but its query
never includes the academicTerms relation that its own term-structure
lookup reads, so it fails with a TypeError whenever the program has a term
structure; in every completing run the weight is necessarily the 1.0
default and the accumulation is again exactly gradePoints times credits.
The claim states the code's evident intent and the query is the slip, so
the claim is settled as a code bug.
-/

/-- The period and term grade computations read only the period, activity,
submission and subject tables, so they are invariant under changes to the
other tables. -/
theorem calcAPG_congr (env : Env) {s s2 : Store}
    (h1 : s2.termAssessmentPeriods = s.termAssessmentPeriods)
    (h2 : s2.activities = s.activities)
    (h3 : s2.activitySubmissions = s.activitySubmissions)
    (subjectId periodId studentId : String) (sysId : Option String) :
    calculateAssessmentPeriodGrade env s2 subjectId periodId studentId sysId =
      calculateAssessmentPeriodGrade env s subjectId periodId studentId sysId := by
  unfold calculateAssessmentPeriodGrade
  rw [h1, h2, h3]

/-- Store invariance of the term grade computation over the four tables it
reads. -/
theorem calcSTG_congr (env : Env) {s s2 : Store}
    (h1 : s2.termAssessmentPeriods = s.termAssessmentPeriods)
    (h2 : s2.activities = s.activities)
    (h3 : s2.activitySubmissions = s.activitySubmissions)
    (h4 : s2.subjects = s.subjects)
    (subjectId termId studentId : String) (sysId : Option String) :
    calculateSubjectTermGrade env s2 subjectId termId studentId sysId =
      calculateSubjectTermGrade env s subjectId termId studentId sysId := by
  have hstep : termAccumStep env s2 subjectId studentId sysId =
      termAccumStep env s subjectId studentId sysId := by
    funext acc period
    unfold termAccumStep
    rw [calcAPG_congr env h1 h2 h3]
  unfold calculateSubjectTermGrade
  rw [h1, h4, hstep]

/-- The subject grades of a cumulative computation, one per subject of the
class group, all computed against the fetched store. -/
def cumulativeGradesOf (env : Env) (s : Store) (cg : ClassGroup)
    (termId studentId asysId : String) : List SubjectTermGrade :=
  (s.subjects.filter (fun x => decide (x.classGroupId = cg.id))).map
    (fun subj => calculateSubjectTermGrade env s subj.id termId studentId (some asysId))

/-- The accumulators of the unnamed-file subject loop equal sums over the
subject grades. -/
theorem p1CumFold (env : Env) (s : Store) (termId studentId asysId : String)
    (l : List Subject) (a : CumAcc) :
    (l.foldl (p1CumStep env s termId studentId asysId) a).totalGradePoints =
      a.totalGradePoints + (l.map (fun subj =>
        (calculateSubjectTermGrade env s subj.id termId studentId (some asysId)).gradePoints *
        (calculateSubjectTermGrade env s subj.id termId studentId (some asysId)).credits)).sum ∧
    (l.foldl (p1CumStep env s termId studentId asysId) a).totalCredits =
      a.totalCredits + (l.map (fun subj =>
        (calculateSubjectTermGrade env s subj.id termId studentId (some asysId)).credits)).sum ∧
    (l.foldl (p1CumStep env s termId studentId asysId) a).earnedCredits =
      a.earnedCredits + (l.map (fun subj =>
        if (calculateSubjectTermGrade env s subj.id termId studentId (some asysId)).isPassing then
          (calculateSubjectTermGrade env s subj.id termId studentId (some asysId)).credits
        else 0)).sum := by
  induction l generalizing a with
  | nil => simp
  | cons subj t ih =>
      simp only [List.foldl_cons, List.map_cons, List.sum_cons]
      refine ⟨?_, ?_, ?_⟩
      · rw [(ih _).1]; simp only [p1CumStep]; ring
      · rw [(ih _).2.1]; simp only [p1CumStep]; ring
      · rw [(ih _).2.2]; simp only [p1CumStep]; ring

/-- The accumulators of the GradeBookService.ts subject loop equal sums
over the subject grades computed against the original fetched store: the
per-subject record updates inside the loop touch only the subject grade
record and history tables, which the grade computation never reads. -/
theorem gbsCumFold (env : Env) (s : Store)
    (gradeBookId termId studentId asysId : String) (w : ℚ)
    (l : List Subject) (a : CumAcc)
    (h1 : a.store.termAssessmentPeriods = s.termAssessmentPeriods)
    (h2 : a.store.activities = s.activities)
    (h3 : a.store.activitySubmissions = s.activitySubmissions)
    (h4 : a.store.subjects = s.subjects) :
    (l.foldl (gbsCumStep env gradeBookId termId studentId asysId w) a).totalGradePoints =
      a.totalGradePoints + (l.map (fun subj =>
        (calculateSubjectTermGrade env s subj.id termId studentId (some asysId)).gradePoints * w *
        (calculateSubjectTermGrade env s subj.id termId studentId (some asysId)).credits)).sum ∧
    (l.foldl (gbsCumStep env gradeBookId termId studentId asysId w) a).totalCredits =
      a.totalCredits + (l.map (fun subj =>
        (calculateSubjectTermGrade env s subj.id termId studentId (some asysId)).credits)).sum ∧
    (l.foldl (gbsCumStep env gradeBookId termId studentId asysId w) a).earnedCredits =
      a.earnedCredits + (l.map (fun subj =>
        if (calculateSubjectTermGrade env s subj.id termId studentId (some asysId)).isPassing then
          (calculateSubjectTermGrade env s subj.id termId studentId (some asysId)).credits
        else 0)).sum := by
  induction l generalizing a with
  | nil => simp
  | cons subj t ih =>
      have hg := calcSTG_congr env h1 h2 h3 h4 subj.id termId studentId (some asysId)
      have ih' := ih (gbsCumStep env gradeBookId termId studentId asysId w a subj) h1 h2 h3 h4
      simp only [List.foldl_cons, List.map_cons, List.sum_cons]
      refine ⟨?_, ?_, ?_⟩
      · rw [ih'.1]; simp only [gbsCumStep, hg]; ring
      · rw [ih'.2.1]; simp only [gbsCumStep, hg]; ring
      · rw [ih'.2.2]; simp only [gbsCumStep, hg]; ring

/-- The cumulative accumulation where defined: for every grade book whose
class and class group resolve, the unnamed-file rewrite succeeds and
returns totalCredits as the credit sum of the class-group subject grades,
earnedCredits as the credit sum of the passing ones, and gpa as the sum of
gradePoints times credits divided by the credit sum when positive, else 0;
the GradeBookService.ts rewrite fails with the TypeError whenever the
program has a term structure, and whenever it does return a result, that
result satisfies the same three equations, the term weight being
necessarily the 1.0 default. -/
theorem cumulativeGrade_gpa_formula (env : Env) (s : Store)
    (gradeBookId studentId termId : String)
    (gb : GradeBookRow) (cls : ClassRow) (cg : ClassGroup)
    (hgb : s.gradeBooks.find? (fun g => decide (g.id = gradeBookId)) = some gb)
    (hcls : s.classes.find? (fun c => decide (c.id = gb.classId)) = some cls)
    (hcg : s.classGroups.find? (fun g => decide (g.id = cls.classGroupId)) = some cg) :
    (∃ r1 s1, calculateCumulativeGradeP1 env s gradeBookId studentId termId = .ok (r1, s1) ∧
      r1.totalCredits = ((cumulativeGradesOf env s cg termId studentId gb.assessmentSystemId).map
        (fun g => g.credits)).sum ∧
      r1.earnedCredits = ((cumulativeGradesOf env s cg termId studentId gb.assessmentSystemId).map
        (fun g => if g.isPassing then g.credits else 0)).sum ∧
      r1.gpa = (if 0 < ((cumulativeGradesOf env s cg termId studentId gb.assessmentSystemId).map
          (fun g => g.credits)).sum then
        ((cumulativeGradesOf env s cg termId studentId gb.assessmentSystemId).map
          (fun g => g.gradePoints * g.credits)).sum /
        ((cumulativeGradesOf env s cg termId studentId gb.assessmentSystemId).map
          (fun g => g.credits)).sum
       else 0)) ∧
    (s.programTermStructures.filter (fun p => decide (p.programId = cg.programId)) ≠ [] →
      calculateCumulativeGradeGBS env s gradeBookId studentId termId =
        .error "TypeError: ts.academicTerms is undefined") ∧
    (∀ r2 s2, calculateCumulativeGradeGBS env s gradeBookId studentId termId = .ok (r2, s2) →
      r2.totalCredits = ((cumulativeGradesOf env s cg termId studentId gb.assessmentSystemId).map
        (fun g => g.credits)).sum ∧
      r2.earnedCredits = ((cumulativeGradesOf env s cg termId studentId gb.assessmentSystemId).map
        (fun g => if g.isPassing then g.credits else 0)).sum ∧
      r2.gpa = (if 0 < ((cumulativeGradesOf env s cg termId studentId gb.assessmentSystemId).map
          (fun g => g.credits)).sum then
        ((cumulativeGradesOf env s cg termId studentId gb.assessmentSystemId).map
          (fun g => g.gradePoints * g.credits)).sum /
        ((cumulativeGradesOf env s cg termId studentId gb.assessmentSystemId).map
          (fun g => g.credits)).sum
       else 0)) := by
  have hlook : cumulativeLookups s gradeBookId = .ok (gb, cls, cg) := by
    simp only [cumulativeLookups, hgb, hcls, hcg, optElim_some]
  refine ⟨?_, ?_, ?_⟩
  · have hfold := p1CumFold env s termId studentId gb.assessmentSystemId
      (s.subjects.filter (fun x => decide (x.classGroupId = cg.id)))
      { subjectGrades := [], totalGradePoints := 0, totalCredits := 0, earnedCredits := 0, store := s }
    simp only [calculateCumulativeGradeP1, hlook, exElim_ok]
    refine ⟨_, _, rfl, ?_, ?_, ?_⟩
    · simp only [hfold.2.1, zero_add, cumulativeGradesOf, List.map_map, Function.comp_def]
    · simp only [hfold.2.2, zero_add, cumulativeGradesOf, List.map_map, Function.comp_def]
    · simp only [hfold.1, hfold.2.1, zero_add, cumulativeGradesOf, List.map_map,
        Function.comp_def]
  · intro hne
    simp only [calculateCumulativeGradeGBS, hlook, exElim_ok]
    rw [if_neg]
    simp only [List.isEmpty_iff]
    exact hne
  · intro r2 s2 hok
    cases hfts : s.programTermStructures.filter (fun p => decide (p.programId = cg.programId)) with
    | cons a t =>
        simp only [calculateCumulativeGradeGBS, hlook, exElim_ok, hfts] at hok
        simp at hok
    | nil =>
        have hfold := gbsCumFold env s gradeBookId termId studentId gb.assessmentSystemId 1
          (s.subjects.filter (fun x => decide (x.classGroupId = cg.id)))
          { subjectGrades := [], totalGradePoints := 0, totalCredits := 0, earnedCredits := 0,
            store := s }
          rfl rfl rfl rfl
        have hw : jsOrQ ((none : Option ClassGroupTermSettings).bind (fun t => t.weight)) 1 = 1 :=
          rfl
        simp only [calculateCumulativeGradeGBS, hlook, exElim_ok, hfts, List.isEmpty_nil,
          if_true] at hok
        simp only [Except.ok.injEq, Prod.mk.injEq] at hok
        obtain ⟨hr, hs⟩ := hok
        subst hr
        rw [hw]
        refine ⟨?_, ?_, ?_⟩
        · simp only [hfold.2.1, zero_add, cumulativeGradesOf, List.map_map, Function.comp_def,
            mul_one]
        · simp only [hfold.2.2, zero_add, cumulativeGradesOf, List.map_map, Function.comp_def]
        · simp only [hfold.1, hfold.2.1, zero_add, cumulativeGradesOf, List.map_map,
            Function.comp_def, mul_one]

/-- Environment of the C4 example: grade points are 3 for a passing
percentage and 2 otherwise. -/
def env4 : Env := { trivEnv with calculateGPA := fun p _ => if 50 ≤ p then 3 else 2 }

/-- Grade book row of the C4 example. -/
def c4GB : GradeBookRow :=
  { id := "gbk", classId := "cls", assessmentSystemId := "sys", termStructureId := none }

/-- Class row of the C4 example. -/
def c4Cls : ClassRow :=
  { id := "cls", name := "c", classGroupId := "cg", capacity := 30, status := "ACTIVE",
    termStructureId := none }

/-- Class group of the C4 example. -/
def c4CG : ClassGroup := { id := "cg", programId := "pr" }

/-- Store of the C4 example: subject A earns 80 percent (passing, grade
points 3, credits 3), subject B earns 40 percent (failing, grade points 2,
credits 2), and the class-group term settings configure term weight 2. -/
def c4Store : Store :=
  { emptyStore with
    termAssessmentPeriods := [
      { id := "p1", termId := "T", name := "P", startDate := 0, endDate := 100, weight := 1 }]
    activities := [
      { id := "aA", subjectId := "A", createdAt := 10 },
      { id := "aB", subjectId := "B", createdAt := 10 }]
    activitySubmissions := [
      { id := "sA", activityId := "aA", studentId := "stu", obtainedMarks := some 80,
        totalMarks := some 100, gradedAt := some 1, rubricScores := none },
      { id := "sB", activityId := "aB", studentId := "stu", obtainedMarks := some 40,
        totalMarks := some 100, gradedAt := some 1, rubricScores := none }]
    subjects := [
      { id := "A", classGroupId := "cg", credits := some 3 },
      { id := "B", classGroupId := "cg", credits := some 2 }]
    classes := [c4Cls]
    classGroups := [c4CG]
    gradeBooks := [c4GB]
    programTermStructures := [
      { id := "pts", programId := "pr", academicTerms := [
        { id := "at1", name := "t", startDate := 0, endDate := 100, termType := "SEMESTER",
          termId := "T", assessmentPeriods := [] }] }]
    classGroupTermSettings := [
      { classGroupId := "cg", programTermId := some "pts", customSettings := none,
        weight := some 2 }] }

/-- The same store with the program term structures and class-group term
settings removed: the only configuration in which the GradeBookService.ts
cumulative computation completes. -/
def c4OkStore : Store :=
  { c4Store with programTermStructures := [], classGroupTermSettings := [] }

/-- Concrete instantiation of the cumulative accumulation theorem: on the
two-subject store, where the program has a term structure, the
GradeBookService.ts rewrite fails with the TypeError, and the unnamed-file
rewrite returns exactly the claimed credit sums and gpa. -/
theorem cumulativeGrade_formula_example :
    calculateCumulativeGradeGBS env4 c4Store "gbk" "stu" "T" =
      .error "TypeError: ts.academicTerms is undefined" ∧
    (∃ r1 s1, calculateCumulativeGradeP1 env4 c4Store "gbk" "stu" "T" = .ok (r1, s1) ∧
      r1.totalCredits = ((cumulativeGradesOf env4 c4Store c4CG "T" "stu" "sys").map
        (fun g => g.credits)).sum ∧
      r1.earnedCredits = ((cumulativeGradesOf env4 c4Store c4CG "T" "stu" "sys").map
        (fun g => if g.isPassing then g.credits else 0)).sum ∧
      r1.gpa = (if 0 < ((cumulativeGradesOf env4 c4Store c4CG "T" "stu" "sys").map
          (fun g => g.credits)).sum then
        ((cumulativeGradesOf env4 c4Store c4CG "T" "stu" "sys").map
          (fun g => g.gradePoints * g.credits)).sum /
        ((cumulativeGradesOf env4 c4Store c4CG "T" "stu" "sys").map
          (fun g => g.credits)).sum
       else 0)) := by
  have hgb : c4Store.gradeBooks.find? (fun g => decide (g.id = "gbk")) = some c4GB := by decide
  have hcls : c4Store.classes.find? (fun c => decide (c.id = c4GB.classId)) = some c4Cls := by
    decide
  have hcg : c4Store.classGroups.find? (fun g => decide (g.id = c4Cls.classGroupId)) =
      some c4CG := by decide
  have h := cumulativeGrade_gpa_formula env4 c4Store "gbk" "stu" "T" c4GB c4Cls c4CG hgb hcls hcg
  exact ⟨h.2.1 (by decide), h.1⟩

/-- Result gpa of a cumulative call, for stating the counterexample. -/
def exceptGpa (x : Except String (CumulativeGrade × Store)) : Option ℚ :=
  exElim x (fun _ => none) (fun r => some r.1.gpa)

/-- Result earned credits of a cumulative call. -/
def exceptEarned (x : Except String (CumulativeGrade × Store)) : Option ℚ :=
  exElim x (fun _ => none) (fun r => some r.1.earnedCredits)

/-- C4: code bug at the failing input. On the two-subject store (grade
points 3 and 2, credits 3 and 2, only the first passing) whose program has
a term structure, the claim predicts that calculateCumulativeGrade returns
gpa (3*3 + 2*2)/5 = 13/5 = 2.6 with earned credits 3; the unnamed-file
rewrite does exactly that, but the GradeBookService.ts rewrite returns no
grade at all: its query includes the program term structures without their
academicTerms relation, and the term-structure lookup dereferences that
absent relation and fails with a TypeError. On the same store stripped of
its term structures, the only configuration in which that rewrite
completes, it too returns gpa 13/5 and earned credits 3, the term weight
being the 1.0 default. -/
theorem cumulativeGradeGBS_crashes_on_term_structures :
    calculateCumulativeGradeGBS env4 c4Store "gbk" "stu" "T" =
      .error "TypeError: ts.academicTerms is undefined" ∧
    exceptGpa (calculateCumulativeGradeP1 env4 c4Store "gbk" "stu" "T") = some (13/5) ∧
    exceptEarned (calculateCumulativeGradeP1 env4 c4Store "gbk" "stu" "T") = some 3 ∧
    exceptGpa (calculateCumulativeGradeGBS env4 c4OkStore "gbk" "stu" "T") = some (13/5) ∧
    exceptEarned (calculateCumulativeGradeGBS env4 c4OkStore "gbk" "stu" "T") = some 3 ∧
    ((3:ℚ) * 3 + 2 * 2) / 5 = 13 / 5 := by
  refine ⟨by rfl, ?_, ?_, ?_, ?_, by norm_num⟩
  · simp +decide [exceptGpa, calculateCumulativeGradeP1, cumulativeLookups, p1CumStep,
      recordUpdate, lookupKey, calculateSubjectTermGrade, termAccumStep,
      calculateAssessmentPeriodGrade, periodAccum, submissionMatches, jsOrQ,
      recordTermResultP1, c4Store, c4GB, c4Cls, c4CG, env4, emptyStore, trivEnv]
    norm_num
  · simp +decide [exceptEarned, calculateCumulativeGradeP1, cumulativeLookups, p1CumStep,
      recordUpdate, lookupKey, calculateSubjectTermGrade, termAccumStep,
      calculateAssessmentPeriodGrade, periodAccum, submissionMatches, jsOrQ,
      recordTermResultP1, c4Store, c4GB, c4Cls, c4CG, env4, emptyStore, trivEnv]
  · simp +decide [exceptGpa, calculateCumulativeGradeGBS, cumulativeLookups,
      gbsCumStep, updateSubjectGradeRecordV2, recordUpdate, lookupKey, historyEntryFor,
      calculateSubjectTermGrade, termAccumStep, calculateAssessmentPeriodGrade, periodAccum,
      submissionMatches, jsOrQ, recordTermResultGBS,
      c4OkStore, c4Store, c4GB, c4Cls, c4CG, env4, emptyStore, trivEnv]
    norm_num
  · simp +decide [exceptEarned, calculateCumulativeGradeGBS, cumulativeLookups,
      gbsCumStep, updateSubjectGradeRecordV2, recordUpdate, lookupKey, historyEntryFor,
      calculateSubjectTermGrade, termAccumStep, calculateAssessmentPeriodGrade, periodAccum,
      submissionMatches, jsOrQ, recordTermResultGBS,
      c4OkStore, c4Store, c4GB, c4Cls, c4CG, env4, emptyStore, trivEnv]

end Lxp
